import Mathlib

/-!
Shallow embedding of the IA-32 interrupt management module (`intconnect.c`):
the vector allocation bitset (`_VectorsAllocated` with `_IntVecAlloc`,
`_IntVecMarkAllocated`, `_IntVecMarkFree`), the IDT installer `_IntVecSet`,
and the interrupt stub synthesis performed by `irq_connect`.

Machine integers are modelled as `Nat` with explicit reduction modulo `2^32`
where the C code relies on `unsigned int` wrap-around.  The stub buffer and
the interrupt descriptor table are modelled as functions from byte offsets,
updated pointwise exactly where the C code writes.
-/

/-- `2^32`, the modulus of the C `unsigned int` type. -/
def M32 : Nat := 4294967296

/-- Truncation of a value to `unsigned int`, as done by the C casts. -/
def u32 (n : Nat) : Nat := n % M32

/-- `unsigned int` subtraction `a - b` (wrap-around modulo `2^32`), used by the
C code to compute relative call/jump displacements. -/
def usub32 (a b : Nat) : Nat := (u32 a + (M32 - u32 b)) % M32

/-- Bitwise complement on `unsigned int` (`~x` in C, for `x < 2^32`). -/
def not32 (x : Nat) : Nat := 4294967295 ^^^ x

/-- Scan bits `i, i+1, ...` (with `fuel` positions remaining) for the first set
bit, returning its 1-based position, or `0` if none is set.  This is the
behaviour the source documents for the external kernel primitive
`find_first_set`: "returns bit position from 1 to 32, or 0 if the argument is
zero". -/
def scanBitUp : Nat → Nat → Nat → Nat
  | 0, _, _ => 0
  | fuel + 1, i, x => if x.testBit i then i + 1 else scanBitUp fuel (i + 1) x

/-- Scan bits `n-1, n-2, ..., 0` for the first set bit, returning its 1-based
position, or `0` if none is set. -/
def scanBitDown : Nat → Nat → Nat
  | 0, _ => 0
  | i + 1, x => if x.testBit i then i + 1 else scanBitDown i x

/-- Modelled from the spec: the kernel primitive `find_first_set` (not part of
this module's source) returns the 1-based position of the least significant set
bit of a 32-bit word, or 0 when the word is zero. -/
def find_first_set (x : Nat) : Nat := scanBitUp 32 0 (x % M32)

/-- Modelled from the spec: the kernel primitive `find_last_set` (not part of
this module's source) returns the 1-based position of the most significant set
bit of a 32-bit word, or 0 when the word is zero. -/
def find_last_set (x : Nat) : Nat := scanBitDown 32 (x % M32)

/-- The `_VectorsAllocated` bitset: word index to 32-bit word.  A set bit means
the corresponding vector is free, a clear bit means allocated. -/
abbrev VecBits : Type := Nat → Nat

/-- `_IntVecAlloc(priority)`: scan word `priority >> 1` of `_VectorsAllocated`
for a free vector satisfying `priority` — from the LSB (`find_first_set`) for
even priorities and from the MSB (`find_last_set`) for odd ones — clear the
found bit and return `(entryToScan << 5) + fsb` after `--fsb`.  The `debug`
flag selects the `#if defined(DEBUG)` checks (priority range and half-word
exhaustion), which return `-1` leaving the bitset untouched.  Returns the
resulting `vector` together with the updated bitset. -/
def _IntVecAlloc (debug : Bool) (numVectors : Nat) (priority : Nat)
    (s : VecBits) : Int × VecBits :=
  if debug ∧ u32 (u32 (priority <<< 4) + 15) > numVectors then (-1, s)
  else
    let entryToScan := priority >>> 1
    let fsb :=
      if priority % 2 = 0 then find_first_set (s entryToScan)
      else find_last_set (s entryToScan)
    if debug ∧ (if priority % 2 = 0 then fsb = 0 ∨ fsb > 16 else fsb = 0 ∨ fsb < 17) then
      (-1, s)
    else
      let fsb' := fsb - 1
      let s' : VecBits := fun i =>
        if i = entryToScan then s entryToScan &&& not32 (1 <<< fsb') else s i
      (((entryToScan <<< 5) + fsb' : Nat), s')

/-- `_IntVecMarkAllocated(vector)`: clear bit `vector % 32` of word
`vector / 32` of `_VectorsAllocated`. -/
def _IntVecMarkAllocated (s : VecBits) (vector : Nat) : VecBits :=
  fun i =>
    if i = vector / 32 then s (vector / 32) &&& not32 (1 <<< (vector % 32)) else s i

/-- `_IntVecMarkFree(vector)`: set bit `vector % 32` of word `vector / 32` of
`_VectorsAllocated`. -/
def _IntVecMarkFree (s : VecBits) (vector : Nat) : VecBits :=
  fun i =>
    if i = vector / 32 then s (vector / 32) ||| (1 <<< (vector % 32)) else s i

/-- One operation on the allocation bitset, for stating frame properties over
sequences of calls. -/
inductive VecOp : Type
  | alloc (debug : Bool) (numVectors : Nat) (priority : Nat)
  | markAlloc (vector : Nat)
  | markFree (vector : Nat)

/-- Apply one bitset operation (the allocation's return value is dropped). -/
def applyOp (s : VecBits) : VecOp → VecBits
  | .alloc d n p => (_IntVecAlloc d n p s).2
  | .markAlloc v => _IntVecMarkAllocated s v
  | .markFree v => _IntVecMarkFree s v

/-- Apply a sequence of bitset operations, left to right. -/
def applyOps (s : VecBits) (ops : List VecOp) : VecBits :=
  ops.foldl applyOp s

/-- An operation addressed to vectors of an even priority's half (bits 0..15
of its word): an allocation for an even priority, or a mark of a vector whose
bit lies in the lower half of its word.  No build restriction. -/
def opEvenHalf : VecOp → Bool
  | .alloc _ _ p => p % 2 == 0
  | .markAlloc v => v % 32 < 16
  | .markFree v => v % 32 < 16

/-- An operation addressed to vectors of an even priority's half, with
allocations restricted to debug (strict) builds. -/
def opEvenHalfDbg : VecOp → Bool
  | .alloc d _ p => d && (p % 2 == 0)
  | .markAlloc v => v % 32 < 16
  | .markFree v => v % 32 < 16

/-- An operation addressed to vectors of an odd priority's half (bits 16..31),
with allocations restricted to debug (strict) builds. -/
def opOddHalfDbg : VecOp → Bool
  | .alloc d _ p => d && (p % 2 == 1)
  | .markAlloc v => 16 ≤ v % 32
  | .markFree v => 16 ≤ v % 32

/-- Write one byte into a byte buffer (`STUB_PTR[i] = b`). -/
def writeByte (m : Nat → Nat) (i b : Nat) : Nat → Nat :=
  fun j => if j = i then b else m j

/-- `UNALIGNED_WRITE` of a 32-bit value at byte offset `i`, little endian. -/
def writeU32 (m : Nat → Nat) (i v : Nat) : Nat → Nat :=
  writeByte
    (writeByte (writeByte (writeByte m i (v % 256)) (i + 1) (v / 256 % 256))
      (i + 2) (v / 65536 % 256))
    (i + 3) (v / 16777216 % 256)

/-- Read back a little-endian 32-bit value at byte offset `i`. -/
def readLE32 (m : Nat → Nat) (i : Nat) : Nat :=
  m i + 256 * m (i + 1) + 65536 * m (i + 2) + 16777216 * m (i + 3)

/-- Modelled from the spec: `IA32_CALL_OPCODE` (macro not in this module's
source); the source's stub listing gives the `call` machine code byte `0xe8`. -/
def IA32_CALL_OPCODE : Nat := 0xE8

/-- Modelled from the spec: `IA32_PUSH_OPCODE`; the source's stub listing gives
the `pushl` machine code byte `0x68`. -/
def IA32_PUSH_OPCODE : Nat := 0x68

/-- Modelled from the spec: `IA32_JMP_OPCODE`; the source's stub listing gives
the `jmp` machine code byte `0xe9`. -/
def IA32_JMP_OPCODE : Nat := 0xE9

/-- Modelled from the spec: `IA32_ADD_OPCODE`; the source's stub listing gives
the `addl $imm8, %esp` machine code bytes `0x83 0xc4`, emitted low byte first
via `IA32_ADD_OPCODE & 0xFF` then `IA32_ADD_OPCODE >> 8`. -/
def IA32_ADD_OPCODE : Nat := 0xC483

/-- State of the stub synthesis in `irq_connect`: the buffer contents, the
running `offsetAdjust` variable, and `numParameters`. -/
structure EmitSt : Type where
  buf : Nat → Nat
  off : Nat
  np : Nat

/-- `irq_connect` lines 306-310: emit `call _IntEnt` at offset 0; the
displacement is relative to `&pIntStubMem[5]`. -/
def emitIntEnt (base ent : Nat) (m : Nat → Nat) : Nat → Nat :=
  writeU32 (writeByte m 0 IA32_CALL_OPCODE) 1 (usub32 ent (base + 5))

/-- The BOI/EOI callout emission block of `irq_connect` (the two blocks are
textually identical up to the BOI/EOI routine and parameter): when the feature
is compiled in and the routine is non-null, emit either `push parm; call rtn`
(when a parameter is required, advancing `offsetAdjust` by 10 and counting one
more parameter) or just `call rtn` (advancing by 5). -/
def emitCallout (supported : Bool) (base rtn rtnParm paramRequired : Nat)
    (st : EmitSt) : EmitSt :=
  if supported then
    if rtn = 0 then st
    else if paramRequired ≠ 0 then
      { buf := writeU32
          (writeByte
            (writeU32 (writeByte st.buf st.off IA32_PUSH_OPCODE) (1 + st.off)
              (u32 rtnParm))
            (5 + st.off) IA32_CALL_OPCODE)
          (6 + st.off) (usub32 rtn (base + (10 + st.off)))
        off := st.off + 10
        np := st.np + 1 }
    else
      { buf := writeU32 (writeByte st.buf st.off IA32_CALL_OPCODE) (1 + st.off)
          (usub32 rtn (base + (5 + st.off)))
        off := st.off + 5
        np := st.np }
  else st

/-- `irq_connect` lines 345-354: emit `push parameter; call routine`
(always present). -/
def emitIsr (base routine parameter : Nat) (st : EmitSt) : EmitSt :=
  { buf := writeU32
      (writeByte
        (writeU32 (writeByte st.buf st.off IA32_PUSH_OPCODE) (1 + st.off)
          (u32 parameter))
        (5 + st.off) IA32_CALL_OPCODE)
      (6 + st.off) (usub32 routine (base + (10 + st.off)))
    off := st.off + 10
    np := st.np }

/-- `irq_connect` lines 395-399: emit `addl $(4*numParameters), %esp` one byte
at a time. -/
def emitAddEsp (st : EmitSt) : EmitSt :=
  { buf := writeByte
      (writeByte (writeByte st.buf st.off (IA32_ADD_OPCODE &&& 0xFF))
        (1 + st.off) (IA32_ADD_OPCODE >>> 8))
      (2 + st.off) ((4 * st.np) % 256)
    off := st.off + 3
    np := st.np }

/-- `irq_connect` lines 407-410: emit `jmp _IntExit`. -/
def emitJmpExit (base ext : Nat) (st : EmitSt) : EmitSt :=
  { buf := writeU32 (writeByte st.buf st.off IA32_JMP_OPCODE) (1 + st.off)
      (usub32 ext (base + (5 + st.off)))
    off := st.off + 5
    np := st.np }

/-- Compile-time feature flags `CONFIG_BOI_HANDLER_SUPPORTED` and
`CONFIG_EOI_HANDLER_SUPPORTED`. -/
structure StubCfg : Type where
  boiSupported : Bool
  eoiSupported : Bool

/-- The inputs `irq_connect` feeds to stub synthesis: the ISR routine and
parameter, and the callout data returned by `_SysIntVecAlloc` (routine
pointers, parameters, and the `*ParamRequired` flags; a null routine is 0). -/
structure ConnectArgs : Type where
  routine : Nat
  parameter : Nat
  boiRtn : Nat
  boiRtnParm : Nat
  boiParamRequired : Nat
  eoiRtn : Nat
  eoiRtnParm : Nat
  eoiParamRequired : Nat

/-- Synthesis state after `call _IntEnt` (`offsetAdjust = 5`,
`numParameters = 1`). -/
def stubStage1 (base ent : Nat) (m0 : Nat → Nat) : EmitSt :=
  ⟨emitIntEnt base ent m0, 5, 1⟩

/-- Synthesis state after the (conditional) BOI block. -/
def stubStage2 (cfg : StubCfg) (base ent : Nat) (a : ConnectArgs)
    (m0 : Nat → Nat) : EmitSt :=
  emitCallout cfg.boiSupported base a.boiRtn a.boiRtnParm a.boiParamRequired
    (stubStage1 base ent m0)

/-- Synthesis state after `push parameter; call routine`. -/
def stubStage3 (cfg : StubCfg) (base ent : Nat) (a : ConnectArgs)
    (m0 : Nat → Nat) : EmitSt :=
  emitIsr base a.routine a.parameter (stubStage2 cfg base ent a m0)

/-- Synthesis state after the (conditional) EOI block. -/
def stubStage4 (cfg : StubCfg) (base ent : Nat) (a : ConnectArgs)
    (m0 : Nat → Nat) : EmitSt :=
  emitCallout cfg.eoiSupported base a.eoiRtn a.eoiRtnParm a.eoiParamRequired
    (stubStage3 cfg base ent a m0)

/-- Synthesis state after the stack-cleanup `addl`. -/
def stubStage5 (cfg : StubCfg) (base ent : Nat) (a : ConnectArgs)
    (m0 : Nat → Nat) : EmitSt :=
  emitAddEsp (stubStage4 cfg base ent a m0)

/-- The complete stub synthesis of `irq_connect` (lines 306-410), applied to
the stub buffer contents `m0`; `base` is the address of `pIntStubMem`. -/
def irqStubState (cfg : StubCfg) (base ent ext : Nat) (a : ConnectArgs)
    (m0 : Nat → Nat) : EmitSt :=
  emitJmpExit base ext (stubStage5 cfg base ent a m0)

/-- Modelled from the spec: the gate descriptor produced by `_IdtEntCreate`
(not in this module's source), which encodes the handler entry point and the
descriptor privilege level. -/
structure GateDesc : Type where
  handler : Nat
  dpl : Nat

/-- Modelled from the spec: `_IdtEntCreate(pIdtEntry, routine, dpl)` builds a
gate descriptor for `routine` at privilege `dpl`. -/
def _IdtEntCreate (routine dpl : Nat) : GateDesc := ⟨routine, dpl⟩

/-- `_IntVecSet(vector, routine, dpl)`: overwrite the IDT entry at byte offset
`vector << 3` from `_idt_base_address` with the gate descriptor for `routine`
at privilege `dpl`.  The IDT is modelled as a map from the byte offset of an
entry to the descriptor stored there. -/
def _IntVecSet (idt : Nat → Option GateDesc) (vector routine dpl : Nat) :
    Nat → Option GateDesc :=
  fun o => if o = u32 (vector <<< 3) then some (_IdtEntCreate routine dpl) else idt o

/-- The result of the external BSP routine `_SysIntVecAlloc`: the allocated
vector (or `-1`) and the BOI/EOI data returned through its output pointers. -/
structure SysAllocResult : Type where
  vector : Int
  boiRtn : Nat
  boiRtnParm : Nat
  boiParamRequired : Nat
  eoiRtn : Nat
  eoiRtnParm : Nat
  eoiParamRequired : Nat

/-- The memory `irq_connect` mutates: the IDT and the caller-supplied stub
buffer (indexed by offset from `pIntStubMem`). -/
structure SysState : Type where
  idt : Nat → Option GateDesc
  stubBuf : Nat → Nat

/-- Truncation of a C `int` to `unsigned int` (the implicit conversion when an
`int` is passed for an `unsigned int` parameter). -/
def u32ofInt (v : Int) : Nat := (v % (M32 : Int)).toNat

/-- `irq_connect(irq, priority, routine, parameter, pIntStubMem)` given the
result `res` of the `_SysIntVecAlloc` call: in a `DEBUG` build a `-1` vector is
propagated before any write; otherwise the stub is synthesized into the stub
buffer and `_IntVecSet(vector, (void (*)(void *))pIntStubMem, 0)` installs the
stub's first byte in the IDT.  Returns `vector` and the updated memory. -/
def irq_connect (debug : Bool) (cfg : StubCfg) (base ent ext : Nat)
    (routine parameter : Nat) (res : SysAllocResult) (st : SysState) :
    Int × SysState :=
  if debug ∧ res.vector = -1 then (-1, st)
  else
    let a : ConnectArgs :=
      ⟨routine, parameter, res.boiRtn, res.boiRtnParm, res.boiParamRequired,
        res.eoiRtn, res.eoiRtnParm, res.eoiParamRequired⟩
    let buf := (irqStubState cfg base ent ext a st.stubBuf).buf
    (res.vector,
      { idt := _IntVecSet st.idt (u32ofInt res.vector) base 0, stubBuf := buf })

theorem M32_eq : M32 = 2 ^ 32 := by norm_num [M32]

theorem usub32_lt (a b : Nat) : usub32 a b < M32 := by
  unfold usub32 M32
  omega

theorem u32_usub32 (a b : Nat) : u32 (usub32 a b) = usub32 a b := by
  unfold u32 usub32 M32
  omega

theorem usub32_add_cancel (a b : Nat) : (usub32 a b + b) % M32 = a % M32 := by
  unfold usub32 u32 M32
  omega

theorem scanBitUp_eq_succ {fuel i x k : Nat} (h : scanBitUp fuel i x = k + 1) :
    i ≤ k ∧ k < i + fuel ∧ x.testBit k = true ∧
      ∀ j, i ≤ j → j < k → x.testBit j = false := by
  induction fuel generalizing i with
  | zero => simp [scanBitUp] at h
  | succ fuel ih =>
    rw [scanBitUp] at h
    by_cases hb : x.testBit i
    · rw [if_pos hb] at h
      obtain rfl : i = k := by omega
      exact ⟨le_refl i, by omega, hb, fun j h1 h2 => absurd (lt_of_le_of_lt h1 h2) (lt_irrefl i)⟩
    · rw [if_neg hb] at h
      obtain ⟨h1, h2, h3, h4⟩ := ih h
      refine ⟨by omega, by omega, h3, fun j hj1 hj2 => ?_⟩
      rcases Nat.eq_or_lt_of_le hj1 with rfl | hlt
      · exact Bool.eq_false_iff.mpr hb
      · exact h4 j hlt hj2

theorem scanBitUp_eq_zero {fuel i x : Nat} (h : scanBitUp fuel i x = 0) :
    ∀ j, i ≤ j → j < i + fuel → x.testBit j = false := by
  induction fuel generalizing i with
  | zero => intro j h1 h2; omega
  | succ fuel ih =>
    rw [scanBitUp] at h
    by_cases hb : x.testBit i
    · rw [if_pos hb] at h; omega
    · rw [if_neg hb] at h
      intro j h1 h2
      rcases Nat.eq_or_lt_of_le h1 with rfl | hlt
      · exact Bool.eq_false_iff.mpr hb
      · exact ih h j hlt (by omega)

theorem scanBitDown_eq_succ {n x k : Nat} (h : scanBitDown n x = k + 1) :
    k < n ∧ x.testBit k = true ∧ ∀ j, k < j → j < n → x.testBit j = false := by
  induction n with
  | zero => simp [scanBitDown] at h
  | succ n ih =>
    rw [scanBitDown] at h
    by_cases hb : x.testBit n
    · rw [if_pos hb] at h
      obtain rfl : n = k := by omega
      exact ⟨by omega, hb, fun j h1 h2 => by omega⟩
    · rw [if_neg hb] at h
      obtain ⟨h1, h2, h3⟩ := ih h
      refine ⟨by omega, h2, fun j hj1 hj2 => ?_⟩
      rcases Nat.lt_or_ge j n with hlt | hge
      · exact h3 j hj1 hlt
      · obtain rfl : j = n := by omega
        exact Bool.eq_false_iff.mpr hb

theorem scanBitDown_eq_zero {n x : Nat} (h : scanBitDown n x = 0) :
    ∀ j, j < n → x.testBit j = false := by
  induction n with
  | zero => intro j h1; omega
  | succ n ih =>
    rw [scanBitDown] at h
    by_cases hb : x.testBit n
    · rw [if_pos hb] at h; omega
    · rw [if_neg hb] at h
      intro j h1
      rcases Nat.lt_or_ge j n with hlt | hge
      · exact ih h j hlt
      · obtain rfl : j = n := by omega
        exact Bool.eq_false_iff.mpr hb

theorem testBit_mod_M32 (x j : Nat) (hj : j < 32) :
    (x % M32).testBit j = x.testBit j := by
  rw [M32_eq, Nat.testBit_mod_two_pow x 32 j]
  simp [hj]

theorem ffs_spec {x k : Nat} (h : find_first_set x = k + 1) :
    k < 32 ∧ x.testBit k = true ∧ ∀ j, j < k → x.testBit j = false := by
  unfold find_first_set at h
  obtain ⟨h1, h2, h3, h4⟩ := scanBitUp_eq_succ h
  have hk : k < 32 := by omega
  refine ⟨hk, by rwa [testBit_mod_M32 x k hk] at h3, fun j hj => ?_⟩
  have := h4 j (Nat.zero_le j) hj
  rwa [testBit_mod_M32 x j (by omega)] at this

theorem ffs_least {x j0 : Nat} (hj0 : j0 < 32) (hbit : x.testBit j0 = true) :
    ∃ k, k ≤ j0 ∧ find_first_set x = k + 1 ∧ x.testBit k = true ∧
      ∀ j, j < k → x.testBit j = false := by
  rcases hf : find_first_set x with _ | k
  · exfalso
    have := @scanBitUp_eq_zero 32 0 (x % M32) hf j0 (Nat.zero_le j0) (by omega)
    rw [testBit_mod_M32 x j0 hj0] at this
    simp [hbit] at this
  · obtain ⟨hk, hb, hmin⟩ := ffs_spec hf
    refine ⟨k, ?_, rfl, hb, hmin⟩
    by_contra hgt
    have := hmin j0 (by omega)
    simp [hbit] at this

theorem fls_spec {x k : Nat} (h : find_last_set x = k + 1) :
    k < 32 ∧ x.testBit k = true ∧ ∀ j, k < j → j < 32 → x.testBit j = false := by
  unfold find_last_set at h
  obtain ⟨h1, h2, h3⟩ := scanBitDown_eq_succ h
  refine ⟨h1, by rwa [testBit_mod_M32 x k h1] at h2, fun j hj1 hj2 => ?_⟩
  have := h3 j hj1 hj2
  rwa [testBit_mod_M32 x j hj2] at this

theorem fls_greatest {x j0 : Nat} (hj0 : j0 < 32) (hbit : x.testBit j0 = true) :
    ∃ k, j0 ≤ k ∧ k < 32 ∧ find_last_set x = k + 1 ∧ x.testBit k = true ∧
      ∀ j, k < j → j < 32 → x.testBit j = false := by
  rcases hf : find_last_set x with _ | k
  · exfalso
    have := @scanBitDown_eq_zero 32 (x % M32) hf j0 (by omega)
    rw [testBit_mod_M32 x j0 hj0] at this
    simp [hbit] at this
  · obtain ⟨hk, hb, hmax⟩ := fls_spec hf
    refine ⟨k, ?_, hk, rfl, hb, hmax⟩
    by_contra hgt
    have := hmax j0 (by omega) hj0
    simp [hbit] at this

theorem testBit_clear_self (w b : Nat) (hb : b < 32) :
    (w &&& not32 (1 <<< b)).testBit b = false := by
  rw [Nat.testBit_and, not32, Nat.testBit_xor, Nat.shiftLeft_eq, one_mul]
  rw [show (4294967295 : Nat) = 2 ^ 32 - 1 by norm_num]
  rw [Nat.testBit_two_pow_sub_one, Nat.testBit_two_pow]
  simp [hb]

theorem testBit_clear_other (w b j : Nat) (hj : j < 32) (hne : j ≠ b) :
    (w &&& not32 (1 <<< b)).testBit j = w.testBit j := by
  rw [Nat.testBit_and, not32, Nat.testBit_xor, Nat.shiftLeft_eq, one_mul]
  rw [show (4294967295 : Nat) = 2 ^ 32 - 1 by norm_num]
  rw [Nat.testBit_two_pow_sub_one, Nat.testBit_two_pow]
  have hbj : (b = j) = False := by simp [Ne.symm hne]
  simp [hj, hbj]

theorem testBit_set_self (w b : Nat) : (w ||| (1 <<< b)).testBit b = true := by
  simp [Nat.testBit_or, Nat.shiftLeft_eq, Nat.testBit_two_pow]

theorem testBit_set_other (w b j : Nat) (hne : j ≠ b) :
    (w ||| (1 <<< b)).testBit j = w.testBit j := by
  have h2 : (2 ^ b).testBit j = false := by
    simp [Nat.testBit_two_pow]
    omega
  simp [Nat.testBit_or, Nat.shiftLeft_eq, h2]

theorem ffs_le (x : Nat) : find_first_set x ≤ 32 := by
  rcases h : find_first_set x with _ | k
  · omega
  · have := (ffs_spec h).1
    omega

theorem fls_le (x : Nat) : find_last_set x ≤ 32 := by
  rcases h : find_last_set x with _ | k
  · omega
  · have := (fls_spec h).1
    omega

/-- `_IntVecAlloc` with its local `let` bindings expanded, for case analysis. -/
theorem _IntVecAlloc_def (debug : Bool) (numVectors priority : Nat) (s : VecBits) :
    _IntVecAlloc debug numVectors priority s =
      if debug ∧ u32 (u32 (priority <<< 4) + 15) > numVectors then (-1, s)
      else if debug ∧ (if priority % 2 = 0
          then (if priority % 2 = 0 then find_first_set (s (priority >>> 1))
              else find_last_set (s (priority >>> 1))) = 0 ∨
            (if priority % 2 = 0 then find_first_set (s (priority >>> 1))
              else find_last_set (s (priority >>> 1))) > 16
          else (if priority % 2 = 0 then find_first_set (s (priority >>> 1))
              else find_last_set (s (priority >>> 1))) = 0 ∨
            (if priority % 2 = 0 then find_first_set (s (priority >>> 1))
              else find_last_set (s (priority >>> 1))) < 17) then
        (-1, s)
      else
        ((((priority >>> 1) <<< 5) +
            ((if priority % 2 = 0 then find_first_set (s (priority >>> 1))
              else find_last_set (s (priority >>> 1))) - 1) : Nat),
          fun i =>
            if i = priority >>> 1 then
              s (priority >>> 1) &&&
                not32 (1 <<< ((if priority % 2 = 0
                  then find_first_set (s (priority >>> 1))
                  else find_last_set (s (priority >>> 1))) - 1))
            else s i) := by
  simp only [_IntVecAlloc]

theorem shiftLeft_five (e : Nat) : e <<< 5 = e * 32 := by
  rw [Nat.shiftLeft_eq]

/-- C4: when `_IntVecAlloc` succeeds with found bit position `fsb ∈ [1,32]`
(`find_first_set` of word `priority >> 1` for even priorities, `find_last_set`
for odd ones), it clears bit `fsb - 1` of that word, leaves every other bit of
the bitset unchanged, and returns `(priority >> 1) * 32 + (fsb - 1)`. -/
theorem c4_intVecAlloc_success (debug : Bool) (numVectors priority : Nat)
    (s : VecBits)
    (hfsb : 1 ≤ (if priority % 2 = 0 then find_first_set (s (priority >>> 1))
      else find_last_set (s (priority >>> 1))))
    (hsucc : (_IntVecAlloc debug numVectors priority s).1 ≠ -1) :
    (_IntVecAlloc debug numVectors priority s).1 =
      (((priority >>> 1) * 32 +
        ((if priority % 2 = 0 then find_first_set (s (priority >>> 1))
          else find_last_set (s (priority >>> 1))) - 1) : Nat))
    ∧ ((_IntVecAlloc debug numVectors priority s).2 (priority >>> 1)).testBit
        ((if priority % 2 = 0 then find_first_set (s (priority >>> 1))
          else find_last_set (s (priority >>> 1))) - 1) = false
    ∧ (∀ j, j < 32 →
        j ≠ (if priority % 2 = 0 then find_first_set (s (priority >>> 1))
          else find_last_set (s (priority >>> 1))) - 1 →
        ((_IntVecAlloc debug numVectors priority s).2 (priority >>> 1)).testBit j =
          (s (priority >>> 1)).testBit j)
    ∧ (∀ i, i ≠ priority >>> 1 → (_IntVecAlloc debug numVectors priority s).2 i = s i) := by
  rw [_IntVecAlloc_def] at hsucc ⊢
  have hle : (if priority % 2 = 0 then find_first_set (s (priority >>> 1))
      else find_last_set (s (priority >>> 1))) ≤ 32 := by
    split
    · exact ffs_le _
    · exact fls_le _
  set F := if priority % 2 = 0 then find_first_set (s (priority >>> 1))
    else find_last_set (s (priority >>> 1)) with hF
  by_cases h1 : debug = true ∧ u32 (u32 (priority <<< 4) + 15) > numVectors
  · rw [if_pos h1] at hsucc
    simp at hsucc
  · rw [if_neg h1] at hsucc ⊢
    by_cases h2 : debug = true ∧
        (if priority % 2 = 0 then F = 0 ∨ F > 16 else F = 0 ∨ F < 17)
    · rw [if_pos h2] at hsucc
      simp at hsucc
    · rw [if_neg h2] at hsucc ⊢
      have hb32 : F - 1 < 32 := by omega
      refine ⟨?_, ?_, ?_, ?_⟩
      · simp only [shiftLeft_five]
      · simp only [if_pos rfl]
        exact testBit_clear_self _ _ hb32
      · intro j hj hne
        simp only [if_pos rfl]
        exact testBit_clear_other _ _ _ hj hne
      · intro i hi
        simp only [if_neg hi]

/-- C6: in a debug (strict) build, if all 16 bits of `priority`'s half of word
`priority >> 1` are clear (all 16 vectors allocated), `_IntVecAlloc` returns
`-1` and leaves the allocation bitset unchanged. -/
theorem c6_intVecAlloc_exhausted (numVectors priority : Nat) (s : VecBits)
    (hfull : ∀ j, j < 16 →
      (s (priority >>> 1)).testBit
        (j + (if priority % 2 = 0 then 0 else 16)) = false) :
    _IntVecAlloc true numVectors priority s = (-1, s) := by
  rw [_IntVecAlloc_def]
  set F := if priority % 2 = 0 then find_first_set (s (priority >>> 1))
    else find_last_set (s (priority >>> 1)) with hF
  by_cases h1 : u32 (u32 (priority <<< 4) + 15) > numVectors
  · rw [if_pos ⟨rfl, h1⟩]
  · rw [if_neg (fun h => h1 h.2)]
    have hchk : if priority % 2 = 0
        then F = 0 ∨ F > 16
        else F = 0 ∨ F < 17 := by
      rcases Nat.even_or_odd priority with he | ho
      · have hp : priority % 2 = 0 := Nat.even_iff.mp he
        have hFe : F = find_first_set (s (priority >>> 1)) := by
          rw [hF, if_pos hp]
        rw [if_pos hp, hFe]
        rcases hf : find_first_set (s (priority >>> 1)) with _ | k
        · exact Or.inl rfl
        · obtain ⟨hk, hbit, hmin⟩ := ffs_spec hf
          right
          by_contra hle
          have h16 : k < 16 := by omega
          have := hfull k h16
          rw [if_pos hp] at this
          rw [Nat.add_zero] at this
          rw [this] at hbit
          exact Bool.false_ne_true hbit
      · have hp : priority % 2 = 1 := Nat.odd_iff.mp ho
        have hp0 : ¬ priority % 2 = 0 := by omega
        have hFo : F = find_last_set (s (priority >>> 1)) := by
          rw [hF, if_neg hp0]
        rw [if_neg hp0, hFo]
        rcases hf : find_last_set (s (priority >>> 1)) with _ | k
        · exact Or.inl rfl
        · obtain ⟨hk, hbit, hmax⟩ := fls_spec hf
          right
          by_contra hle
          have h16 : 16 ≤ k := by omega
          have := hfull (k - 16) (by omega)
          rw [if_neg hp0] at this
          rw [show k - 16 + 16 = k by omega] at this
          rw [this] at hbit
          exact Bool.false_ne_true hbit
    rw [if_pos ⟨rfl, hchk⟩]

/-- C9: `_IntVecMarkAllocated` leaves the vector's bit cleared and is
idempotent; `_IntVecMarkFree` leaves the vector's bit set and is idempotent. -/
theorem c9_mark_idempotent (s : VecBits) (v : Nat) :
    (_IntVecMarkAllocated s v (v / 32)).testBit (v % 32) = false
    ∧ _IntVecMarkAllocated (_IntVecMarkAllocated s v) v = _IntVecMarkAllocated s v
    ∧ (_IntVecMarkFree s v (v / 32)).testBit (v % 32) = true
    ∧ _IntVecMarkFree (_IntVecMarkFree s v) v = _IntVecMarkFree s v := by
  have hm : v % 32 < 32 := Nat.mod_lt v (by omega)
  have ha : _IntVecMarkAllocated s v (v / 32) =
      s (v / 32) &&& not32 (1 <<< (v % 32)) := by
    simp [_IntVecMarkAllocated]
  have hf : _IntVecMarkFree s v (v / 32) =
      s (v / 32) ||| (1 <<< (v % 32)) := by
    simp [_IntVecMarkFree]
  refine ⟨?_, ?_, ?_, ?_⟩
  · rw [ha]
    exact testBit_clear_self _ _ hm
  · funext i
    by_cases hi : i = v / 32
    · subst hi
      simp [_IntVecMarkAllocated, Nat.and_assoc, Nat.and_self]
    · simp [_IntVecMarkAllocated, hi]
  · rw [hf]
    exact testBit_set_self _ _
  · funext i
    by_cases hi : i = v / 32
    · subst hi
      simp [_IntVecMarkFree, Nat.or_assoc, Nat.or_self]
    · simp [_IntVecMarkFree, hi]

/-- A successful `_IntVecAlloc` for an even priority whose lower half has a
free bit: it returns the lowest free vector of the half and clears its bit. -/
theorem alloc_even_step (debug : Bool) (numVectors priority : Nat) (s : VecBits)
    (hp : priority % 2 = 0)
    (hrange : debug = true → u32 (u32 (priority <<< 4) + 15) ≤ numVectors)
    (hfree : ∃ j, j < 16 ∧ (s (priority >>> 1)).testBit j = true) :
    ∃ k, k < 16 ∧ (s (priority >>> 1)).testBit k = true ∧
      (∀ j, j < k → (s (priority >>> 1)).testBit j = false) ∧
      (_IntVecAlloc debug numVectors priority s).1 =
        (((priority >>> 1) * 32 + k : Nat)) ∧
      ((_IntVecAlloc debug numVectors priority s).2 (priority >>> 1)).testBit k = false ∧
      (∀ j, j < 32 → j ≠ k →
        ((_IntVecAlloc debug numVectors priority s).2 (priority >>> 1)).testBit j =
          (s (priority >>> 1)).testBit j) := by
  obtain ⟨j0, hj0, hbit0⟩ := hfree
  obtain ⟨k, hkj, hffs, hbitk, hmin⟩ := ffs_least (by omega : j0 < 32) hbit0
  have hk16 : k < 16 := by omega
  have h1 : ¬(debug = true ∧ u32 (u32 (priority <<< 4) + 15) > numVectors) := by
    rintro ⟨hd, hgt⟩
    exact absurd (hrange hd) (by omega)
  rw [_IntVecAlloc_def]
  rw [if_neg h1]
  have h2 : ¬(debug = true ∧
      (if priority % 2 = 0
        then (if priority % 2 = 0 then find_first_set (s (priority >>> 1))
            else find_last_set (s (priority >>> 1))) = 0 ∨
          (if priority % 2 = 0 then find_first_set (s (priority >>> 1))
            else find_last_set (s (priority >>> 1))) > 16
        else (if priority % 2 = 0 then find_first_set (s (priority >>> 1))
            else find_last_set (s (priority >>> 1))) = 0 ∨
          (if priority % 2 = 0 then find_first_set (s (priority >>> 1))
            else find_last_set (s (priority >>> 1))) < 17)) := by
    rintro ⟨hd, hc⟩
    rw [if_pos hp, if_pos hp, hffs] at hc
    omega
  rw [if_neg h2]
  refine ⟨k, hk16, hbitk, hmin, ?_, ?_, ?_⟩
  · simp only [if_pos hp, hffs, shiftLeft_five, Nat.add_sub_cancel]
  · simp only [if_pos rfl, if_pos hp, hffs, Nat.add_sub_cancel]
    exact testBit_clear_self _ _ (by omega)
  · intro j hj hne
    simp only [if_pos rfl, if_pos hp, hffs, Nat.add_sub_cancel]
    exact testBit_clear_other _ _ _ hj hne

/-- A successful `_IntVecAlloc` for an odd priority whose upper half has a
free bit: it returns the highest free vector of the half and clears its bit. -/
theorem alloc_odd_step (debug : Bool) (numVectors priority : Nat) (s : VecBits)
    (hp : priority % 2 = 1)
    (hrange : debug = true → u32 (u32 (priority <<< 4) + 15) ≤ numVectors)
    (hfree : ∃ j, 16 ≤ j ∧ j < 32 ∧ (s (priority >>> 1)).testBit j = true) :
    ∃ k, 16 ≤ k ∧ k < 32 ∧ (s (priority >>> 1)).testBit k = true ∧
      (∀ j, k < j → j < 32 → (s (priority >>> 1)).testBit j = false) ∧
      (_IntVecAlloc debug numVectors priority s).1 =
        (((priority >>> 1) * 32 + k : Nat)) ∧
      ((_IntVecAlloc debug numVectors priority s).2 (priority >>> 1)).testBit k = false ∧
      (∀ j, j < 32 → j ≠ k →
        ((_IntVecAlloc debug numVectors priority s).2 (priority >>> 1)).testBit j =
          (s (priority >>> 1)).testBit j) := by
  obtain ⟨j0, hj016, hj0, hbit0⟩ := hfree
  obtain ⟨k, hkj, hk32, hfls, hbitk, hmax⟩ := fls_greatest hj0 hbit0
  have hk16 : 16 ≤ k := by omega
  have hp0 : ¬ priority % 2 = 0 := by omega
  have h1 : ¬(debug = true ∧ u32 (u32 (priority <<< 4) + 15) > numVectors) := by
    rintro ⟨hd, hgt⟩
    exact absurd (hrange hd) (by omega)
  rw [_IntVecAlloc_def]
  rw [if_neg h1]
  have h2 : ¬(debug = true ∧
      (if priority % 2 = 0
        then (if priority % 2 = 0 then find_first_set (s (priority >>> 1))
            else find_last_set (s (priority >>> 1))) = 0 ∨
          (if priority % 2 = 0 then find_first_set (s (priority >>> 1))
            else find_last_set (s (priority >>> 1))) > 16
        else (if priority % 2 = 0 then find_first_set (s (priority >>> 1))
            else find_last_set (s (priority >>> 1))) = 0 ∨
          (if priority % 2 = 0 then find_first_set (s (priority >>> 1))
            else find_last_set (s (priority >>> 1))) < 17)) := by
    rintro ⟨hd, hc⟩
    rw [if_neg hp0, if_neg hp0, hfls] at hc
    omega
  rw [if_neg h2]
  refine ⟨k, hk16, hk32, hbitk, hmax, ?_, ?_, ?_⟩
  · simp only [if_neg hp0, hfls, shiftLeft_five, Nat.add_sub_cancel]
  · simp only [if_pos rfl, if_neg hp0, hfls, Nat.add_sub_cancel]
    exact testBit_clear_self _ _ (by omega)
  · intro j hj hne
    simp only [if_pos rfl, if_neg hp0, hfls, Nat.add_sub_cancel]
    exact testBit_clear_other _ _ _ hj hne

/-- C5: as long as free vectors remain in the priority's own half, each
`_IntVecAlloc` call for an even priority returns exactly the lowest-numbered
free vector of the half and clears exactly its bit, so consecutive calls
return the free vectors in ascending order; for an odd priority each call
returns exactly the highest-numbered free vector of the half, so consecutive
calls return them in descending order. -/
theorem c5_scan_direction (debug : Bool) (numVectors priority : Nat)
    (s : VecBits)
    (hrange : debug = true → u32 (u32 (priority <<< 4) + 15) ≤ numVectors) :
    (priority % 2 = 0 →
      (∃ j, j < 16 ∧ (s (priority >>> 1)).testBit j = true) →
      ∃ k1, k1 < 16 ∧ (s (priority >>> 1)).testBit k1 = true ∧
        (∀ j, j < k1 → (s (priority >>> 1)).testBit j = false) ∧
        (_IntVecAlloc debug numVectors priority s).1 =
          (((priority >>> 1) * 32 + k1 : Nat)) ∧
        ((_IntVecAlloc debug numVectors priority s).2 (priority >>> 1)).testBit
          k1 = false ∧
        (∀ j, j < 32 → j ≠ k1 →
          ((_IntVecAlloc debug numVectors priority s).2 (priority >>> 1)).testBit
            j = (s (priority >>> 1)).testBit j) ∧
        ((∃ j, j < 16 ∧
            ((_IntVecAlloc debug numVectors priority s).2 (priority >>> 1)).testBit
              j = true) →
          ∃ k2, k2 < 16 ∧
            ((_IntVecAlloc debug numVectors priority s).2 (priority >>> 1)).testBit
              k2 = true ∧
            (∀ j, j < k2 →
              ((_IntVecAlloc debug numVectors priority s).2
                (priority >>> 1)).testBit j = false) ∧
            (_IntVecAlloc debug numVectors priority
                (_IntVecAlloc debug numVectors priority s).2).1 =
              (((priority >>> 1) * 32 + k2 : Nat)) ∧
            k1 < k2 ∧
            (_IntVecAlloc debug numVectors priority s).1 <
              (_IntVecAlloc debug numVectors priority
                (_IntVecAlloc debug numVectors priority s).2).1))
    ∧ (priority % 2 = 1 →
      (∃ j, 16 ≤ j ∧ j < 32 ∧ (s (priority >>> 1)).testBit j = true) →
      ∃ k1, 16 ≤ k1 ∧ k1 < 32 ∧ (s (priority >>> 1)).testBit k1 = true ∧
        (∀ j, k1 < j → j < 32 → (s (priority >>> 1)).testBit j = false) ∧
        (_IntVecAlloc debug numVectors priority s).1 =
          (((priority >>> 1) * 32 + k1 : Nat)) ∧
        ((_IntVecAlloc debug numVectors priority s).2 (priority >>> 1)).testBit
          k1 = false ∧
        (∀ j, j < 32 → j ≠ k1 →
          ((_IntVecAlloc debug numVectors priority s).2 (priority >>> 1)).testBit
            j = (s (priority >>> 1)).testBit j) ∧
        ((∃ j, 16 ≤ j ∧ j < 32 ∧
            ((_IntVecAlloc debug numVectors priority s).2 (priority >>> 1)).testBit
              j = true) →
          ∃ k2, 16 ≤ k2 ∧ k2 < 32 ∧
            ((_IntVecAlloc debug numVectors priority s).2 (priority >>> 1)).testBit
              k2 = true ∧
            (∀ j, k2 < j → j < 32 →
              ((_IntVecAlloc debug numVectors priority s).2
                (priority >>> 1)).testBit j = false) ∧
            (_IntVecAlloc debug numVectors priority
                (_IntVecAlloc debug numVectors priority s).2).1 =
              (((priority >>> 1) * 32 + k2 : Nat)) ∧
            k2 < k1 ∧
            (_IntVecAlloc debug numVectors priority
                (_IntVecAlloc debug numVectors priority s).2).1 <
              (_IntVecAlloc debug numVectors priority s).1)) := by
  constructor
  · intro hp hfree1
    obtain ⟨k1, hk1, hb1, hmin1, hv1, hc1, ho1⟩ :=
      alloc_even_step debug numVectors priority s hp hrange hfree1
    refine ⟨k1, hk1, hb1, hmin1, hv1, hc1, ho1, ?_⟩
    intro hfree2
    obtain ⟨k2, hk2, hb2, hmin2, hv2, hc2, ho2⟩ :=
      alloc_even_step debug numVectors priority
        (_IntVecAlloc debug numVectors priority s).2 hp hrange hfree2
    have hne : k2 ≠ k1 := by
      intro h
      rw [h, hc1] at hb2
      simp at hb2
    have hlt : k1 < k2 := by
      rcases Nat.lt_or_ge k2 k1 with hlt2 | hge
      · exfalso
        have ha := ho1 k2 (by omega) hne
        rw [hb2, hmin1 k2 hlt2] at ha
        simp at ha
      · omega
    refine ⟨k2, hk2, hb2, hmin2, hv2, hlt, ?_⟩
    rw [hv1, hv2]
    exact_mod_cast by omega
  · intro hp hfree1
    obtain ⟨k1, hk1a, hk1b, hb1, hmax1, hv1, hc1, ho1⟩ :=
      alloc_odd_step debug numVectors priority s hp hrange hfree1
    refine ⟨k1, hk1a, hk1b, hb1, hmax1, hv1, hc1, ho1, ?_⟩
    intro hfree2
    obtain ⟨k2, hk2a, hk2b, hb2, hmax2, hv2, hc2, ho2⟩ :=
      alloc_odd_step debug numVectors priority
        (_IntVecAlloc debug numVectors priority s).2 hp hrange hfree2
    have hne : k2 ≠ k1 := by
      intro h
      rw [h, hc1] at hb2
      simp at hb2
    have hlt : k2 < k1 := by
      rcases Nat.lt_or_ge k1 k2 with hlt2 | hge
      · exfalso
        have ha := ho1 k2 (by omega) hne
        rw [hb2, hmax1 k2 hlt2 (by omega)] at ha
        simp at ha
      · omega
    refine ⟨k2, hk2a, hk2b, hb2, hmax2, hv2, hlt, ?_⟩
    rw [hv1, hv2]
    exact_mod_cast by omega

/-- C10: in a non-debug (trusting) build, an even priority whose lower half is
exhausted while the shared word's upper half still has a free bit does not
fail: `_IntVecAlloc` clears the lowest set bit of the upper half and returns a
vector in the odd sibling's range; symmetrically, an odd priority with an
exhausted upper half allocates the highest free bit of the lower half. -/
theorem c10_crossover (numVectors priority : Nat) (s : VecBits) :
    (priority % 2 = 0 →
      (∀ j, j < 16 → (s (priority >>> 1)).testBit j = false) →
      (∃ j, 16 ≤ j ∧ j < 32 ∧ (s (priority >>> 1)).testBit j = true) →
      ∃ k, 16 ≤ k ∧ k < 32 ∧ (s (priority >>> 1)).testBit k = true ∧
        (∀ j, 16 ≤ j → j < k → (s (priority >>> 1)).testBit j = false) ∧
        (_IntVecAlloc false numVectors priority s).1 =
          (((priority >>> 1) * 32 + k : Nat)) ∧
        (((priority >>> 1) * 32 + 16 : Nat) : Int) ≤
          (_IntVecAlloc false numVectors priority s).1 ∧
        (_IntVecAlloc false numVectors priority s).1 <
          (((priority >>> 1) * 32 + 32 : Nat) : Int) ∧
        ((_IntVecAlloc false numVectors priority s).2 (priority >>> 1)).testBit k
          = false ∧
        (∀ j, j < 32 → j ≠ k →
          ((_IntVecAlloc false numVectors priority s).2 (priority >>> 1)).testBit j
            = (s (priority >>> 1)).testBit j) ∧
        (∀ i, i ≠ priority >>> 1 →
          (_IntVecAlloc false numVectors priority s).2 i = s i))
    ∧ (priority % 2 = 1 →
      (∀ j, 16 ≤ j → j < 32 → (s (priority >>> 1)).testBit j = false) →
      (∃ j, j < 16 ∧ (s (priority >>> 1)).testBit j = true) →
      ∃ k, k < 16 ∧ (s (priority >>> 1)).testBit k = true ∧
        (∀ j, k < j → j < 16 → (s (priority >>> 1)).testBit j = false) ∧
        (_IntVecAlloc false numVectors priority s).1 =
          (((priority >>> 1) * 32 + k : Nat)) ∧
        (_IntVecAlloc false numVectors priority s).1 <
          (((priority >>> 1) * 32 + 16 : Nat) : Int) ∧
        ((_IntVecAlloc false numVectors priority s).2 (priority >>> 1)).testBit k
          = false ∧
        (∀ j, j < 32 → j ≠ k →
          ((_IntVecAlloc false numVectors priority s).2 (priority >>> 1)).testBit j
            = (s (priority >>> 1)).testBit j) ∧
        (∀ i, i ≠ priority >>> 1 →
          (_IntVecAlloc false numVectors priority s).2 i = s i)) := by
  constructor
  · intro hp hlow hfree
    obtain ⟨j0, hj016, hj032, hbit0⟩ := hfree
    obtain ⟨k, hkj, hffs, hbitk, hmin⟩ := ffs_least hj032 hbit0
    have hk16 : 16 ≤ k := by
      by_contra hlt
      have := hlow k (by omega)
      rw [this] at hbitk
      simp at hbitk
    rw [_IntVecAlloc_def]
    rw [if_neg (by simp), if_neg (by simp)]
    refine ⟨k, hk16, by omega, hbitk, fun j h1 h2 => hmin j h2, ?_, ?_, ?_, ?_, ?_, ?_⟩
    · simp only [if_pos hp, hffs, shiftLeft_five, Nat.add_sub_cancel]
    · simp only [if_pos hp, hffs, shiftLeft_five, Nat.add_sub_cancel]
      exact_mod_cast by omega
    · simp only [if_pos hp, hffs, shiftLeft_five, Nat.add_sub_cancel]
      exact_mod_cast by omega
    · simp only [if_pos rfl, if_pos hp, hffs, Nat.add_sub_cancel]
      exact testBit_clear_self _ _ (by omega)
    · intro j hj hne
      simp only [if_pos rfl, if_pos hp, hffs, Nat.add_sub_cancel]
      exact testBit_clear_other _ _ _ hj hne
    · intro i hi
      simp only [if_neg hi]
  · intro hp hhigh hfree
    have hp0 : ¬ priority % 2 = 0 := by omega
    obtain ⟨j0, hj0, hbit0⟩ := hfree
    obtain ⟨k, hkj, hk32, hfls, hbitk, hmax⟩ := fls_greatest (by omega) hbit0
    have hk16 : k < 16 := by
      by_contra hge
      have := hhigh k (by omega) hk32
      rw [this] at hbitk
      simp at hbitk
    rw [_IntVecAlloc_def]
    rw [if_neg (by simp), if_neg (by simp)]
    refine ⟨k, hk16, hbitk, fun j h1 h2 => hmax j h1 (by omega), ?_, ?_, ?_, ?_, ?_⟩
    · simp only [if_neg hp0, hfls, shiftLeft_five, Nat.add_sub_cancel]
    · simp only [if_neg hp0, hfls, shiftLeft_five, Nat.add_sub_cancel]
      exact_mod_cast by omega
    · simp only [if_pos rfl, if_neg hp0, hfls, Nat.add_sub_cancel]
      exact testBit_clear_self _ _ (by omega)
    · intro j hj hne
      simp only [if_pos rfl, if_neg hp0, hfls, Nat.add_sub_cancel]
      exact testBit_clear_other _ _ _ hj hne
    · intro i hi
      simp only [if_neg hi]

/-- One debug-build operation addressed to an even half never changes bits
16..31 of any word. -/
theorem applyOp_even_frame (s : VecBits) (op : VecOp) (i j : Nat)
    (hop : opEvenHalfDbg op = true) (hj1 : 16 ≤ j) (hj2 : j < 32) :
    (applyOp s op i).testBit j = (s i).testBit j := by
  cases op with
  | alloc d n p =>
    simp only [opEvenHalfDbg, Bool.and_eq_true, beq_iff_eq] at hop
    obtain ⟨hd, hp⟩ := hop
    subst hd
    simp only [applyOp]
    rw [_IntVecAlloc_def]
    by_cases h1 : u32 (u32 (p <<< 4) + 15) > n
    · rw [if_pos ⟨rfl, h1⟩]
    · rw [if_neg (fun h => h1 h.2)]
      set F := if p % 2 = 0 then find_first_set (s (p >>> 1))
        else find_last_set (s (p >>> 1)) with hF
      by_cases h2 : if p % 2 = 0 then F = 0 ∨ F > 16 else F = 0 ∨ F < 17
      · rw [if_pos ⟨rfl, h2⟩]
      · rw [if_neg (fun h => h2 h.2)]
        rw [if_pos hp] at h2
        simp only []
        by_cases hi : i = p >>> 1
        · rw [if_pos hi, hi]
          exact testBit_clear_other _ _ _ hj2 (by omega)
        · rw [if_neg hi]
  | markAlloc v =>
    simp only [opEvenHalfDbg, decide_eq_true_eq] at hop
    simp only [applyOp, _IntVecMarkAllocated]
    by_cases hi : i = v / 32
    · rw [if_pos hi, hi]
      exact testBit_clear_other _ _ _ hj2 (by omega)
    · rw [if_neg hi]
  | markFree v =>
    simp only [opEvenHalfDbg, decide_eq_true_eq] at hop
    simp only [applyOp, _IntVecMarkFree]
    by_cases hi : i = v / 32
    · rw [if_pos hi, hi]
      exact testBit_set_other _ _ _ (by omega)
    · rw [if_neg hi]

/-- One debug-build operation addressed to an odd half never changes bits
0..15 of any word. -/
theorem applyOp_odd_frame (s : VecBits) (op : VecOp) (i j : Nat)
    (hop : opOddHalfDbg op = true) (hj : j < 16) :
    (applyOp s op i).testBit j = (s i).testBit j := by
  cases op with
  | alloc d n p =>
    simp only [opOddHalfDbg, Bool.and_eq_true, beq_iff_eq] at hop
    obtain ⟨hd, hp⟩ := hop
    subst hd
    have hp0 : ¬ p % 2 = 0 := by omega
    simp only [applyOp]
    rw [_IntVecAlloc_def]
    by_cases h1 : u32 (u32 (p <<< 4) + 15) > n
    · rw [if_pos ⟨rfl, h1⟩]
    · rw [if_neg (fun h => h1 h.2)]
      set F := if p % 2 = 0 then find_first_set (s (p >>> 1))
        else find_last_set (s (p >>> 1)) with hF
      by_cases h2 : if p % 2 = 0 then F = 0 ∨ F > 16 else F = 0 ∨ F < 17
      · rw [if_pos ⟨rfl, h2⟩]
      · rw [if_neg (fun h => h2 h.2)]
        rw [if_neg hp0] at h2
        simp only []
        by_cases hi : i = p >>> 1
        · rw [if_pos hi, hi]
          exact testBit_clear_other _ _ _ (by omega) (by omega)
        · rw [if_neg hi]
  | markAlloc v =>
    simp only [opOddHalfDbg, decide_eq_true_eq] at hop
    simp only [applyOp, _IntVecMarkAllocated]
    by_cases hi : i = v / 32
    · rw [if_pos hi, hi]
      exact testBit_clear_other _ _ _ (by omega) (by omega)
    · rw [if_neg hi]
  | markFree v =>
    simp only [opOddHalfDbg, decide_eq_true_eq] at hop
    simp only [applyOp, _IntVecMarkFree]
    by_cases hi : i = v / 32
    · rw [if_pos hi, hi]
      exact testBit_set_other _ _ _ (by omega)
    · rw [if_neg hi]

/-- C8 (amended to debug builds): a sequence of operations addressed to even
halves leaves bits 16..31 of every word unchanged, and a sequence addressed to
odd halves leaves bits 0..15 unchanged. -/
theorem c8_half_independence (s : VecBits) (ops : List VecOp) (i : Nat) :
    ((∀ op ∈ ops, opEvenHalfDbg op = true) →
      ∀ j, 16 ≤ j → j < 32 → (applyOps s ops i).testBit j = (s i).testBit j)
    ∧ ((∀ op ∈ ops, opOddHalfDbg op = true) →
      ∀ j, j < 16 → (applyOps s ops i).testBit j = (s i).testBit j) := by
  induction ops generalizing s with
  | nil => exact ⟨fun _ _ _ _ => rfl, fun _ _ _ => rfl⟩
  | cons op ops ih =>
    constructor
    · intro hops j hj1 hj2
      have hstep : applyOps s (op :: ops) = applyOps (applyOp s op) ops := by
        simp [applyOps]
      rw [hstep]
      rw [(ih (applyOp s op)).1 (fun o ho => hops o (List.mem_cons_of_mem _ ho)) j hj1 hj2]
      exact applyOp_even_frame s op i j (hops op (List.mem_cons_self op ops)) hj1 hj2
    · intro hops j hj
      have hstep : applyOps s (op :: ops) = applyOps (applyOp s op) ops := by
        simp [applyOps]
      rw [hstep]
      rw [(ih (applyOp s op)).2 (fun o ho => hops o (List.mem_cons_of_mem _ ho)) j hj]
      exact applyOp_odd_frame s op i j (hops op (List.mem_cons_self op ops)) hj

/-- C8 counterexample: without the debug-build restriction the claim is false.
With word 1 equal to `0xFFFF0000` (even half exhausted), the single operation
`_IntVecAlloc` for even priority 2 in a non-debug build clears bit 16 of word
1, changing the odd sibling priority's half. -/
theorem c8_counterexample :
    ¬ (∀ (s : VecBits) (ops : List VecOp) (i : Nat),
        (∀ op ∈ ops, opEvenHalf op = true) →
        ∀ j, 16 ≤ j → j < 32 →
          (applyOps s ops i).testBit j = (s i).testBit j) := by
  intro h
  have hc := h (fun _ => 0xFFFF0000) [VecOp.alloc false 256 2] 1
    (by decide) 16 (by omega) (by omega)
  rw [show (applyOps (fun _ => 0xFFFF0000) [VecOp.alloc false 256 2] 1).testBit 16
      = false from by decide] at hc
  exact absurd hc.symm (by decide)

/-- C7: in a debug build, when `_SysIntVecAlloc` reports failure (`vector` is
`-1`), `irq_connect` returns `-1` without writing any stub byte or IDT entry. -/
theorem c7_connect_fail_atomic (cfg : StubCfg) (base ent ext routine parameter : Nat)
    (res : SysAllocResult) (st : SysState) (hfail : res.vector = -1) :
    irq_connect true cfg base ent ext routine parameter res st = (-1, st) := by
  rw [irq_connect, if_pos ⟨rfl, hfail⟩]

theorem writeByte_app (m : Nat → Nat) (i b j : Nat) :
    writeByte m i b j = if j = i then b else m j := rfl

theorem writeByte_at (m : Nat → Nat) (i b : Nat) : writeByte m i b i = b := by
  rw [writeByte_app, if_pos rfl]

theorem writeU32_ne (m : Nat → Nat) (i v j : Nat) (h : j < i ∨ i + 4 ≤ j) :
    writeU32 m i v j = m j := by
  unfold writeU32
  rw [writeByte_app, if_neg (show j ≠ i + 3 by omega),
    writeByte_app, if_neg (show j ≠ i + 2 by omega),
    writeByte_app, if_neg (show j ≠ i + 1 by omega),
    writeByte_app, if_neg (show j ≠ i by omega)]

theorem readLE32_congr {m1 m2 : Nat → Nat} {i : Nat}
    (h : ∀ k, i ≤ k → k < i + 4 → m1 k = m2 k) :
    readLE32 m1 i = readLE32 m2 i := by
  unfold readLE32
  rw [h i (by omega) (by omega), h (i + 1) (by omega) (by omega),
    h (i + 2) (by omega) (by omega), h (i + 3) (by omega) (by omega)]

theorem readLE32_writeU32_self (m : Nat → Nat) (i v : Nat) :
    readLE32 (writeU32 m i v) i = u32 v := by
  have h0 : writeU32 m i v i = v % 256 := by
    unfold writeU32
    rw [writeByte_app, if_neg (show i ≠ i + 3 by omega),
      writeByte_app, if_neg (show i ≠ i + 2 by omega),
      writeByte_app, if_neg (show i ≠ i + 1 by omega), writeByte_at]
  have h1 : writeU32 m i v (i + 1) = v / 256 % 256 := by
    unfold writeU32
    rw [writeByte_app, if_neg (show i + 1 ≠ i + 3 by omega),
      writeByte_app, if_neg (show i + 1 ≠ i + 2 by omega), writeByte_at]
  have h2 : writeU32 m i v (i + 2) = v / 65536 % 256 := by
    unfold writeU32
    rw [writeByte_app, if_neg (show i + 2 ≠ i + 3 by omega), writeByte_at]
  have h3 : writeU32 m i v (i + 3) = v / 16777216 % 256 := by
    unfold writeU32
    rw [writeByte_at]
  unfold readLE32 u32 M32
  rw [h0, h1, h2, h3]
  omega

theorem emitIntEnt_off_frame (base ent : Nat) (m : Nat → Nat) (j : Nat)
    (h : 5 ≤ j) : emitIntEnt base ent m j = m j := by
  unfold emitIntEnt
  rw [writeU32_ne _ _ _ _ (by omega), writeByte_app, if_neg (by omega)]

theorem emitIntEnt_opcode (base ent : Nat) (m : Nat → Nat) :
    emitIntEnt base ent m 0 = IA32_CALL_OPCODE := by
  unfold emitIntEnt
  rw [writeU32_ne _ _ _ _ (by omega), writeByte_at]

theorem emitIntEnt_read (base ent : Nat) (m : Nat → Nat) :
    readLE32 (emitIntEnt base ent m) 1 = usub32 ent (base + 5) := by
  unfold emitIntEnt
  rw [readLE32_writeU32_self, u32_usub32]

theorem emitCallout_below (sup : Bool) (base rtn rtnParm paramRequired : Nat)
    (st : EmitSt) (j : Nat) (h : j < st.off) :
    (emitCallout sup base rtn rtnParm paramRequired st).buf j = st.buf j := by
  unfold emitCallout
  split
  · split
    · rfl
    · split
      · simp only []
        rw [writeU32_ne _ _ _ _ (by omega), writeByte_app, if_neg (by omega),
          writeU32_ne _ _ _ _ (by omega), writeByte_app, if_neg (by omega)]
      · simp only []
        rw [writeU32_ne _ _ _ _ (by omega), writeByte_app, if_neg (by omega)]
  · rfl

theorem emitCallout_above (sup : Bool) (base rtn rtnParm paramRequired : Nat)
    (st : EmitSt) (j : Nat) (h : st.off + 10 ≤ j) :
    (emitCallout sup base rtn rtnParm paramRequired st).buf j = st.buf j := by
  unfold emitCallout
  split
  · split
    · rfl
    · split
      · simp only []
        rw [writeU32_ne _ _ _ _ (by omega), writeByte_app, if_neg (by omega),
          writeU32_ne _ _ _ _ (by omega), writeByte_app, if_neg (by omega)]
      · simp only []
        rw [writeU32_ne _ _ _ _ (by omega), writeByte_app, if_neg (by omega)]
  · rfl

theorem emitCallout_off_ge (sup : Bool) (base rtn rtnParm paramRequired : Nat)
    (st : EmitSt) :
    st.off ≤ (emitCallout sup base rtn rtnParm paramRequired st).off := by
  unfold emitCallout
  split
  · split
    · exact le_refl _
    · split
      · simp only []
        omega
      · simp only []
        omega
  · exact le_refl _

theorem emitCallout_off_le (sup : Bool) (base rtn rtnParm paramRequired : Nat)
    (st : EmitSt) :
    (emitCallout sup base rtn rtnParm paramRequired st).off ≤ st.off + 10 := by
  unfold emitCallout
  split
  · split
    · omega
    · split
      · simp only []
        omega
      · simp only []
        omega
  · omega

theorem emitCallout_np (sup : Bool) (base rtn rtnParm paramRequired : Nat)
    (st : EmitSt) :
    (emitCallout sup base rtn rtnParm paramRequired st).np =
      st.np + (if sup = true ∧ rtn ≠ 0 ∧ paramRequired ≠ 0 then 1 else 0) := by
  unfold emitCallout
  by_cases hs : sup = true
  · rw [if_pos hs]
    by_cases hr : rtn = 0
    · rw [if_pos hr, if_neg (by simp [hr])]
      omega
    · rw [if_neg hr]
      by_cases hp : paramRequired ≠ 0
      · rw [if_pos hp, if_pos ⟨hs, hr, hp⟩]
      · rw [if_neg hp, if_neg (by simp [hp])]
        simp only []
        omega
  · have hs2 : sup = false := by
      cases sup
      · rfl
      · exact absurd rfl hs
    rw [hs2]
    rw [if_neg (by simp), if_neg (by simp [hs2])]
    omega

theorem emitIsr_below (base routine parameter : Nat) (st : EmitSt) (j : Nat)
    (h : j < st.off) :
    (emitIsr base routine parameter st).buf j = st.buf j := by
  unfold emitIsr
  simp only []
  rw [writeU32_ne _ _ _ _ (by omega), writeByte_app, if_neg (by omega),
    writeU32_ne _ _ _ _ (by omega), writeByte_app, if_neg (by omega)]

theorem emitIsr_above (base routine parameter : Nat) (st : EmitSt) (j : Nat)
    (h : st.off + 10 ≤ j) :
    (emitIsr base routine parameter st).buf j = st.buf j := by
  unfold emitIsr
  simp only []
  rw [writeU32_ne _ _ _ _ (by omega), writeByte_app, if_neg (by omega),
    writeU32_ne _ _ _ _ (by omega), writeByte_app, if_neg (by omega)]

theorem emitAddEsp_below (st : EmitSt) (j : Nat) (h : j < st.off) :
    (emitAddEsp st).buf j = st.buf j := by
  unfold emitAddEsp
  simp only []
  rw [writeByte_app, if_neg (by omega), writeByte_app, if_neg (by omega),
    writeByte_app, if_neg (by omega)]

theorem emitAddEsp_above (st : EmitSt) (j : Nat) (h : st.off + 3 ≤ j) :
    (emitAddEsp st).buf j = st.buf j := by
  unfold emitAddEsp
  simp only []
  rw [writeByte_app, if_neg (by omega), writeByte_app, if_neg (by omega),
    writeByte_app, if_neg (by omega)]

theorem emitJmpExit_below (base ext : Nat) (st : EmitSt) (j : Nat)
    (h : j < st.off) :
    (emitJmpExit base ext st).buf j = st.buf j := by
  unfold emitJmpExit
  simp only []
  rw [writeU32_ne _ _ _ _ (by omega), writeByte_app, if_neg (by omega)]

theorem emitJmpExit_above (base ext : Nat) (st : EmitSt) (j : Nat)
    (h : st.off + 5 ≤ j) :
    (emitJmpExit base ext st).buf j = st.buf j := by
  unfold emitJmpExit
  simp only []
  rw [writeU32_ne _ _ _ _ (by omega), writeByte_app, if_neg (by omega)]

theorem emitIsr_opcode_push (base routine parameter : Nat) (st : EmitSt) :
    (emitIsr base routine parameter st).buf st.off = IA32_PUSH_OPCODE := by
  unfold emitIsr
  simp only []
  rw [writeU32_ne _ _ _ _ (by omega), writeByte_app, if_neg (by omega),
    writeU32_ne _ _ _ _ (by omega), writeByte_at]

theorem emitIsr_read_push (base routine parameter : Nat) (st : EmitSt) :
    readLE32 (emitIsr base routine parameter st).buf (1 + st.off) =
      u32 parameter := by
  unfold emitIsr
  simp only []
  rw [readLE32_congr (fun k h1 h2 => by
    rw [writeU32_ne _ _ _ _ (by omega), writeByte_app, if_neg (by omega)])]
  rw [readLE32_writeU32_self]
  unfold u32 M32
  omega

theorem emitIsr_opcode_call (base routine parameter : Nat) (st : EmitSt) :
    (emitIsr base routine parameter st).buf (5 + st.off) = IA32_CALL_OPCODE := by
  unfold emitIsr
  simp only []
  rw [writeU32_ne _ _ _ _ (by omega), writeByte_at]

theorem emitIsr_read_call (base routine parameter : Nat) (st : EmitSt) :
    readLE32 (emitIsr base routine parameter st).buf (6 + st.off) =
      usub32 routine (base + (10 + st.off)) := by
  unfold emitIsr
  simp only []
  rw [readLE32_writeU32_self, u32_usub32]

theorem emitCallout_param_opcode_push (base rtn rtnParm paramRequired : Nat)
    (st : EmitSt) (hr : rtn ≠ 0) (hp : paramRequired ≠ 0) :
    (emitCallout true base rtn rtnParm paramRequired st).buf st.off =
      IA32_PUSH_OPCODE := by
  unfold emitCallout
  rw [if_pos rfl, if_neg hr, if_pos hp]
  simp only []
  rw [writeU32_ne _ _ _ _ (by omega), writeByte_app, if_neg (by omega),
    writeU32_ne _ _ _ _ (by omega), writeByte_at]

theorem emitCallout_param_read_push (base rtn rtnParm paramRequired : Nat)
    (st : EmitSt) (hr : rtn ≠ 0) (hp : paramRequired ≠ 0) :
    readLE32 (emitCallout true base rtn rtnParm paramRequired st).buf (1 + st.off) =
      u32 rtnParm := by
  unfold emitCallout
  rw [if_pos rfl, if_neg hr, if_pos hp]
  simp only []
  rw [readLE32_congr (fun k h1 h2 => by
    rw [writeU32_ne _ _ _ _ (by omega), writeByte_app, if_neg (by omega)])]
  rw [readLE32_writeU32_self]
  unfold u32 M32
  omega

theorem emitCallout_param_opcode_call (base rtn rtnParm paramRequired : Nat)
    (st : EmitSt) (hr : rtn ≠ 0) (hp : paramRequired ≠ 0) :
    (emitCallout true base rtn rtnParm paramRequired st).buf (5 + st.off) =
      IA32_CALL_OPCODE := by
  unfold emitCallout
  rw [if_pos rfl, if_neg hr, if_pos hp]
  simp only []
  rw [writeU32_ne _ _ _ _ (by omega), writeByte_at]

theorem emitCallout_param_read_call (base rtn rtnParm paramRequired : Nat)
    (st : EmitSt) (hr : rtn ≠ 0) (hp : paramRequired ≠ 0) :
    readLE32 (emitCallout true base rtn rtnParm paramRequired st).buf (6 + st.off) =
      usub32 rtn (base + (10 + st.off)) := by
  unfold emitCallout
  rw [if_pos rfl, if_neg hr, if_pos hp]
  simp only []
  rw [readLE32_writeU32_self, u32_usub32]

theorem emitCallout_param_off (base rtn rtnParm paramRequired : Nat)
    (st : EmitSt) (hr : rtn ≠ 0) (hp : paramRequired ≠ 0) :
    (emitCallout true base rtn rtnParm paramRequired st).off = st.off + 10 := by
  unfold emitCallout
  rw [if_pos rfl, if_neg hr, if_pos hp]

theorem emitCallout_noparam_opcode_call (base rtn rtnParm : Nat)
    (st : EmitSt) (hr : rtn ≠ 0) :
    (emitCallout true base rtn rtnParm 0 st).buf st.off = IA32_CALL_OPCODE := by
  unfold emitCallout
  rw [if_pos rfl, if_neg hr, if_neg (by omega)]
  simp only []
  rw [writeU32_ne _ _ _ _ (by omega), writeByte_at]

theorem emitCallout_noparam_read_call (base rtn rtnParm : Nat)
    (st : EmitSt) (hr : rtn ≠ 0) :
    readLE32 (emitCallout true base rtn rtnParm 0 st).buf (1 + st.off) =
      usub32 rtn (base + (5 + st.off)) := by
  unfold emitCallout
  rw [if_pos rfl, if_neg hr, if_neg (by omega)]
  simp only []
  rw [readLE32_writeU32_self, u32_usub32]

theorem emitCallout_noparam_off (base rtn rtnParm : Nat)
    (st : EmitSt) (hr : rtn ≠ 0) :
    (emitCallout true base rtn rtnParm 0 st).off = st.off + 5 := by
  unfold emitCallout
  rw [if_pos rfl, if_neg hr, if_neg (by omega)]

theorem emitCallout_skip (sup : Bool) (base rtn rtnParm paramRequired : Nat)
    (st : EmitSt) (h : sup = false ∨ rtn = 0) :
    emitCallout sup base rtn rtnParm paramRequired st = st := by
  unfold emitCallout
  rcases h with hs | hr
  · rw [hs, if_neg (by simp)]
  · by_cases hs : sup = true
    · rw [if_pos hs, if_pos hr]
    · rw [if_neg hs]

theorem emitAddEsp_opcode_lo (st : EmitSt) :
    (emitAddEsp st).buf st.off = IA32_ADD_OPCODE &&& 0xFF := by
  unfold emitAddEsp
  simp only []
  rw [writeByte_app, if_neg (by omega), writeByte_app, if_neg (by omega),
    writeByte_at]

theorem emitAddEsp_opcode_hi (st : EmitSt) :
    (emitAddEsp st).buf (1 + st.off) = IA32_ADD_OPCODE >>> 8 := by
  unfold emitAddEsp
  simp only []
  rw [writeByte_app, if_neg (by omega), writeByte_at]

theorem emitAddEsp_read_imm (st : EmitSt) :
    (emitAddEsp st).buf (2 + st.off) = (4 * st.np) % 256 := by
  unfold emitAddEsp
  simp only []
  rw [writeByte_at]

theorem emitJmpExit_opcode (base ext : Nat) (st : EmitSt) :
    (emitJmpExit base ext st).buf st.off = IA32_JMP_OPCODE := by
  unfold emitJmpExit
  simp only []
  rw [writeU32_ne _ _ _ _ (by omega), writeByte_at]

theorem emitJmpExit_read (base ext : Nat) (st : EmitSt) :
    readLE32 (emitJmpExit base ext st).buf (1 + st.off) =
      usub32 ext (base + (5 + st.off)) := by
  unfold emitJmpExit
  simp only []
  rw [readLE32_writeU32_self, u32_usub32]

theorem emitIsr_off (base routine parameter : Nat) (st : EmitSt) :
    (emitIsr base routine parameter st).off = st.off + 10 := rfl

theorem emitIsr_np (base routine parameter : Nat) (st : EmitSt) :
    (emitIsr base routine parameter st).np = st.np := rfl

theorem emitAddEsp_off (st : EmitSt) : (emitAddEsp st).off = st.off + 3 := rfl

theorem emitJmpExit_off (base ext : Nat) (st : EmitSt) :
    (emitJmpExit base ext st).off = st.off + 5 := rfl

theorem stub_tail_byte2 (cfg : StubCfg) (base ent ext : Nat) (a : ConnectArgs)
    (m0 : Nat → Nat) (j : Nat) (hj : j < (stubStage2 cfg base ent a m0).off) :
    (irqStubState cfg base ent ext a m0).buf j =
      (stubStage2 cfg base ent a m0).buf j := by
  have h3off : (stubStage3 cfg base ent a m0).off =
      (stubStage2 cfg base ent a m0).off + 10 := rfl
  have h4ge : (stubStage3 cfg base ent a m0).off ≤
      (stubStage4 cfg base ent a m0).off := emitCallout_off_ge _ _ _ _ _ _
  have h5off : (stubStage5 cfg base ent a m0).off =
      (stubStage4 cfg base ent a m0).off + 3 := rfl
  unfold irqStubState
  rw [emitJmpExit_below base ext (stubStage5 cfg base ent a m0) j (by omega)]
  unfold stubStage5
  rw [emitAddEsp_below (stubStage4 cfg base ent a m0) j (by omega)]
  unfold stubStage4
  rw [emitCallout_below cfg.eoiSupported base a.eoiRtn a.eoiRtnParm
    a.eoiParamRequired (stubStage3 cfg base ent a m0) j (by omega)]
  unfold stubStage3
  rw [emitIsr_below base a.routine a.parameter (stubStage2 cfg base ent a m0) j hj]

theorem stub_tail_byte3 (cfg : StubCfg) (base ent ext : Nat) (a : ConnectArgs)
    (m0 : Nat → Nat) (j : Nat) (hj : j < (stubStage3 cfg base ent a m0).off) :
    (irqStubState cfg base ent ext a m0).buf j =
      (stubStage3 cfg base ent a m0).buf j := by
  have h4ge : (stubStage3 cfg base ent a m0).off ≤
      (stubStage4 cfg base ent a m0).off := emitCallout_off_ge _ _ _ _ _ _
  have h5off : (stubStage5 cfg base ent a m0).off =
      (stubStage4 cfg base ent a m0).off + 3 := rfl
  unfold irqStubState
  rw [emitJmpExit_below base ext (stubStage5 cfg base ent a m0) j (by omega)]
  unfold stubStage5
  rw [emitAddEsp_below (stubStage4 cfg base ent a m0) j (by omega)]
  unfold stubStage4
  rw [emitCallout_below cfg.eoiSupported base a.eoiRtn a.eoiRtnParm
    a.eoiParamRequired (stubStage3 cfg base ent a m0) j hj]

theorem stub_tail_byte4 (cfg : StubCfg) (base ent ext : Nat) (a : ConnectArgs)
    (m0 : Nat → Nat) (j : Nat) (hj : j < (stubStage4 cfg base ent a m0).off) :
    (irqStubState cfg base ent ext a m0).buf j =
      (stubStage4 cfg base ent a m0).buf j := by
  have h5off : (stubStage5 cfg base ent a m0).off =
      (stubStage4 cfg base ent a m0).off + 3 := rfl
  unfold irqStubState
  rw [emitJmpExit_below base ext (stubStage5 cfg base ent a m0) j (by omega)]
  unfold stubStage5
  rw [emitAddEsp_below (stubStage4 cfg base ent a m0) j (by omega)]

theorem stub_tail_byte5 (cfg : StubCfg) (base ent ext : Nat) (a : ConnectArgs)
    (m0 : Nat → Nat) (j : Nat) (hj : j < (stubStage5 cfg base ent a m0).off) :
    (irqStubState cfg base ent ext a m0).buf j =
      (stubStage5 cfg base ent a m0).buf j := by
  unfold irqStubState
  rw [emitJmpExit_below base ext (stubStage5 cfg base ent a m0) j hj]

theorem stub_tail_read2 (cfg : StubCfg) (base ent ext : Nat) (a : ConnectArgs)
    (m0 : Nat → Nat) (j : Nat)
    (hj : j + 4 ≤ (stubStage2 cfg base ent a m0).off) :
    readLE32 (irqStubState cfg base ent ext a m0).buf j =
      readLE32 (stubStage2 cfg base ent a m0).buf j :=
  readLE32_congr (fun k h1 h2 => stub_tail_byte2 cfg base ent ext a m0 k (by omega))

theorem stub_tail_read3 (cfg : StubCfg) (base ent ext : Nat) (a : ConnectArgs)
    (m0 : Nat → Nat) (j : Nat)
    (hj : j + 4 ≤ (stubStage3 cfg base ent a m0).off) :
    readLE32 (irqStubState cfg base ent ext a m0).buf j =
      readLE32 (stubStage3 cfg base ent a m0).buf j :=
  readLE32_congr (fun k h1 h2 => stub_tail_byte3 cfg base ent ext a m0 k (by omega))

theorem stub_tail_read4 (cfg : StubCfg) (base ent ext : Nat) (a : ConnectArgs)
    (m0 : Nat → Nat) (j : Nat)
    (hj : j + 4 ≤ (stubStage4 cfg base ent a m0).off) :
    readLE32 (irqStubState cfg base ent ext a m0).buf j =
      readLE32 (stubStage4 cfg base ent a m0).buf j :=
  readLE32_congr (fun k h1 h2 => stub_tail_byte4 cfg base ent ext a m0 k (by omega))

theorem stubStage2_off_ge (cfg : StubCfg) (base ent : Nat) (a : ConnectArgs)
    (m0 : Nat → Nat) : 5 ≤ (stubStage2 cfg base ent a m0).off := by
  have h := emitCallout_off_ge cfg.boiSupported base a.boiRtn a.boiRtnParm
    a.boiParamRequired (stubStage1 base ent m0)
  exact h

theorem stubStage3_off (cfg : StubCfg) (base ent : Nat) (a : ConnectArgs)
    (m0 : Nat → Nat) :
    (stubStage3 cfg base ent a m0).off = (stubStage2 cfg base ent a m0).off + 10 :=
  rfl

theorem stubStage4_off_ge (cfg : StubCfg) (base ent : Nat) (a : ConnectArgs)
    (m0 : Nat → Nat) :
    (stubStage3 cfg base ent a m0).off ≤ (stubStage4 cfg base ent a m0).off :=
  emitCallout_off_ge _ _ _ _ _ _

theorem stubStage5_off (cfg : StubCfg) (base ent : Nat) (a : ConnectArgs)
    (m0 : Nat → Nat) :
    (stubStage5 cfg base ent a m0).off = (stubStage4 cfg base ent a m0).off + 3 :=
  rfl

theorem stub_site_ent_opcode (cfg : StubCfg) (base ent ext : Nat)
    (a : ConnectArgs) (m0 : Nat → Nat) :
    (irqStubState cfg base ent ext a m0).buf 0 = IA32_CALL_OPCODE := by
  have h2 := stubStage2_off_ge cfg base ent a m0
  have h1off : (stubStage1 base ent m0).off = 5 := rfl
  rw [stub_tail_byte2 cfg base ent ext a m0 0 (by omega)]
  unfold stubStage2
  rw [emitCallout_below cfg.boiSupported base a.boiRtn a.boiRtnParm
    a.boiParamRequired (stubStage1 base ent m0) 0 (by omega)]
  exact emitIntEnt_opcode base ent m0

theorem stub_site_ent_read (cfg : StubCfg) (base ent ext : Nat)
    (a : ConnectArgs) (m0 : Nat → Nat) :
    readLE32 (irqStubState cfg base ent ext a m0).buf 1 = usub32 ent (base + 5) := by
  have h2 := stubStage2_off_ge cfg base ent a m0
  have h1off : (stubStage1 base ent m0).off = 5 := rfl
  rw [stub_tail_read2 cfg base ent ext a m0 1 (by omega)]
  unfold stubStage2
  rw [readLE32_congr (fun k (hk1 : 1 ≤ k) (hk2 : k < 1 + 4) =>
    emitCallout_below cfg.boiSupported base a.boiRtn a.boiRtnParm
      a.boiParamRequired (stubStage1 base ent m0) k (by omega))]
  exact emitIntEnt_read base ent m0

theorem stub_site_isr_opcode (cfg : StubCfg) (base ent ext : Nat)
    (a : ConnectArgs) (m0 : Nat → Nat) :
    (irqStubState cfg base ent ext a m0).buf
      (5 + (stubStage2 cfg base ent a m0).off) = IA32_CALL_OPCODE := by
  have h3 := stubStage3_off cfg base ent a m0
  rw [stub_tail_byte3 cfg base ent ext a m0 _ (by omega)]
  unfold stubStage3
  exact emitIsr_opcode_call base a.routine a.parameter (stubStage2 cfg base ent a m0)

theorem stub_site_isr_read (cfg : StubCfg) (base ent ext : Nat)
    (a : ConnectArgs) (m0 : Nat → Nat) :
    readLE32 (irqStubState cfg base ent ext a m0).buf
        (6 + (stubStage2 cfg base ent a m0).off) =
      usub32 a.routine (base + (10 + (stubStage2 cfg base ent a m0).off)) := by
  have h3 := stubStage3_off cfg base ent a m0
  rw [stub_tail_read3 cfg base ent ext a m0 _ (by omega)]
  unfold stubStage3
  exact emitIsr_read_call base a.routine a.parameter (stubStage2 cfg base ent a m0)

theorem stub_site_isr_push_opcode (cfg : StubCfg) (base ent ext : Nat)
    (a : ConnectArgs) (m0 : Nat → Nat) :
    (irqStubState cfg base ent ext a m0).buf
      (stubStage2 cfg base ent a m0).off = IA32_PUSH_OPCODE := by
  have h3 := stubStage3_off cfg base ent a m0
  rw [stub_tail_byte3 cfg base ent ext a m0 _ (by omega)]
  unfold stubStage3
  exact emitIsr_opcode_push base a.routine a.parameter (stubStage2 cfg base ent a m0)

theorem stub_site_isr_push_read (cfg : StubCfg) (base ent ext : Nat)
    (a : ConnectArgs) (m0 : Nat → Nat) :
    readLE32 (irqStubState cfg base ent ext a m0).buf
        (1 + (stubStage2 cfg base ent a m0).off) = u32 a.parameter := by
  have h3 := stubStage3_off cfg base ent a m0
  rw [stub_tail_read3 cfg base ent ext a m0 _ (by omega)]
  unfold stubStage3
  exact emitIsr_read_push base a.routine a.parameter (stubStage2 cfg base ent a m0)

theorem stub_site_jmp_opcode (cfg : StubCfg) (base ent ext : Nat)
    (a : ConnectArgs) (m0 : Nat → Nat) :
    (irqStubState cfg base ent ext a m0).buf
      (stubStage5 cfg base ent a m0).off = IA32_JMP_OPCODE := by
  unfold irqStubState
  exact emitJmpExit_opcode base ext (stubStage5 cfg base ent a m0)

theorem stub_site_jmp_read (cfg : StubCfg) (base ent ext : Nat)
    (a : ConnectArgs) (m0 : Nat → Nat) :
    readLE32 (irqStubState cfg base ent ext a m0).buf
        (1 + (stubStage5 cfg base ent a m0).off) =
      usub32 ext (base + (5 + (stubStage5 cfg base ent a m0).off)) := by
  unfold irqStubState
  exact emitJmpExit_read base ext (stubStage5 cfg base ent a m0)

theorem stubStage2_off_boi_param (cfg : StubCfg) (base ent : Nat)
    (a : ConnectArgs) (m0 : Nat → Nat) (hb : cfg.boiSupported = true)
    (hr : a.boiRtn ≠ 0) (hp : a.boiParamRequired ≠ 0) :
    (stubStage2 cfg base ent a m0).off = 15 := by
  unfold stubStage2
  rw [hb, emitCallout_param_off base a.boiRtn a.boiRtnParm a.boiParamRequired
    (stubStage1 base ent m0) hr hp]
  rfl

theorem stub_site_boi_param_opcode (cfg : StubCfg) (base ent ext : Nat)
    (a : ConnectArgs) (m0 : Nat → Nat) (hb : cfg.boiSupported = true)
    (hr : a.boiRtn ≠ 0) (hp : a.boiParamRequired ≠ 0) :
    (irqStubState cfg base ent ext a m0).buf 10 = IA32_CALL_OPCODE := by
  have h2off := stubStage2_off_boi_param cfg base ent a m0 hb hr hp
  rw [stub_tail_byte2 cfg base ent ext a m0 10 (by omega)]
  unfold stubStage2
  rw [hb]
  exact emitCallout_param_opcode_call base a.boiRtn a.boiRtnParm
    a.boiParamRequired (stubStage1 base ent m0) hr hp

theorem stub_site_boi_param_read (cfg : StubCfg) (base ent ext : Nat)
    (a : ConnectArgs) (m0 : Nat → Nat) (hb : cfg.boiSupported = true)
    (hr : a.boiRtn ≠ 0) (hp : a.boiParamRequired ≠ 0) :
    readLE32 (irqStubState cfg base ent ext a m0).buf 11 =
      usub32 a.boiRtn (base + 15) := by
  have h2off := stubStage2_off_boi_param cfg base ent a m0 hb hr hp
  rw [stub_tail_read2 cfg base ent ext a m0 11 (by omega)]
  unfold stubStage2
  rw [hb]
  exact emitCallout_param_read_call base a.boiRtn a.boiRtnParm
    a.boiParamRequired (stubStage1 base ent m0) hr hp

theorem stubStage2_off_boi_noparam (cfg : StubCfg) (base ent : Nat)
    (a : ConnectArgs) (m0 : Nat → Nat) (hb : cfg.boiSupported = true)
    (hr : a.boiRtn ≠ 0) (hp : a.boiParamRequired = 0) :
    (stubStage2 cfg base ent a m0).off = 10 := by
  unfold stubStage2
  rw [hb, hp, emitCallout_noparam_off base a.boiRtn a.boiRtnParm
    (stubStage1 base ent m0) hr]
  rfl

theorem stub_site_boi_noparam_opcode (cfg : StubCfg) (base ent ext : Nat)
    (a : ConnectArgs) (m0 : Nat → Nat) (hb : cfg.boiSupported = true)
    (hr : a.boiRtn ≠ 0) (hp : a.boiParamRequired = 0) :
    (irqStubState cfg base ent ext a m0).buf 5 = IA32_CALL_OPCODE := by
  have h2off := stubStage2_off_boi_noparam cfg base ent a m0 hb hr hp
  rw [stub_tail_byte2 cfg base ent ext a m0 5 (by omega)]
  unfold stubStage2
  rw [hb, hp]
  exact emitCallout_noparam_opcode_call base a.boiRtn a.boiRtnParm
    (stubStage1 base ent m0) hr

theorem stub_site_boi_noparam_read (cfg : StubCfg) (base ent ext : Nat)
    (a : ConnectArgs) (m0 : Nat → Nat) (hb : cfg.boiSupported = true)
    (hr : a.boiRtn ≠ 0) (hp : a.boiParamRequired = 0) :
    readLE32 (irqStubState cfg base ent ext a m0).buf 6 =
      usub32 a.boiRtn (base + 10) := by
  have h2off := stubStage2_off_boi_noparam cfg base ent a m0 hb hr hp
  rw [stub_tail_read2 cfg base ent ext a m0 6 (by omega)]
  unfold stubStage2
  rw [hb, hp]
  exact emitCallout_noparam_read_call base a.boiRtn a.boiRtnParm
    (stubStage1 base ent m0) hr

theorem stubStage4_off_eoi_param (cfg : StubCfg) (base ent : Nat)
    (a : ConnectArgs) (m0 : Nat → Nat) (he : cfg.eoiSupported = true)
    (hr : a.eoiRtn ≠ 0) (hp : a.eoiParamRequired ≠ 0) :
    (stubStage4 cfg base ent a m0).off = (stubStage3 cfg base ent a m0).off + 10 := by
  unfold stubStage4
  rw [he, emitCallout_param_off base a.eoiRtn a.eoiRtnParm a.eoiParamRequired
    (stubStage3 cfg base ent a m0) hr hp]

theorem stub_site_eoi_param_opcode (cfg : StubCfg) (base ent ext : Nat)
    (a : ConnectArgs) (m0 : Nat → Nat) (he : cfg.eoiSupported = true)
    (hr : a.eoiRtn ≠ 0) (hp : a.eoiParamRequired ≠ 0) :
    (irqStubState cfg base ent ext a m0).buf
      (5 + (stubStage3 cfg base ent a m0).off) = IA32_CALL_OPCODE := by
  have h4off := stubStage4_off_eoi_param cfg base ent a m0 he hr hp
  rw [stub_tail_byte4 cfg base ent ext a m0 _ (by omega)]
  unfold stubStage4
  rw [he]
  exact emitCallout_param_opcode_call base a.eoiRtn a.eoiRtnParm
    a.eoiParamRequired (stubStage3 cfg base ent a m0) hr hp

theorem stub_site_eoi_param_read (cfg : StubCfg) (base ent ext : Nat)
    (a : ConnectArgs) (m0 : Nat → Nat) (he : cfg.eoiSupported = true)
    (hr : a.eoiRtn ≠ 0) (hp : a.eoiParamRequired ≠ 0) :
    readLE32 (irqStubState cfg base ent ext a m0).buf
        (6 + (stubStage3 cfg base ent a m0).off) =
      usub32 a.eoiRtn (base + (10 + (stubStage3 cfg base ent a m0).off)) := by
  have h4off := stubStage4_off_eoi_param cfg base ent a m0 he hr hp
  rw [stub_tail_read4 cfg base ent ext a m0 _ (by omega)]
  unfold stubStage4
  rw [he]
  exact emitCallout_param_read_call base a.eoiRtn a.eoiRtnParm
    a.eoiParamRequired (stubStage3 cfg base ent a m0) hr hp

theorem stubStage4_off_eoi_noparam (cfg : StubCfg) (base ent : Nat)
    (a : ConnectArgs) (m0 : Nat → Nat) (he : cfg.eoiSupported = true)
    (hr : a.eoiRtn ≠ 0) (hp : a.eoiParamRequired = 0) :
    (stubStage4 cfg base ent a m0).off = (stubStage3 cfg base ent a m0).off + 5 := by
  unfold stubStage4
  rw [he, hp, emitCallout_noparam_off base a.eoiRtn a.eoiRtnParm
    (stubStage3 cfg base ent a m0) hr]

theorem stub_site_eoi_noparam_opcode (cfg : StubCfg) (base ent ext : Nat)
    (a : ConnectArgs) (m0 : Nat → Nat) (he : cfg.eoiSupported = true)
    (hr : a.eoiRtn ≠ 0) (hp : a.eoiParamRequired = 0) :
    (irqStubState cfg base ent ext a m0).buf
      (stubStage3 cfg base ent a m0).off = IA32_CALL_OPCODE := by
  have h4off := stubStage4_off_eoi_noparam cfg base ent a m0 he hr hp
  rw [stub_tail_byte4 cfg base ent ext a m0 _ (by omega)]
  unfold stubStage4
  rw [he, hp]
  exact emitCallout_noparam_opcode_call base a.eoiRtn a.eoiRtnParm
    (stubStage3 cfg base ent a m0) hr

theorem stub_site_eoi_noparam_read (cfg : StubCfg) (base ent ext : Nat)
    (a : ConnectArgs) (m0 : Nat → Nat) (he : cfg.eoiSupported = true)
    (hr : a.eoiRtn ≠ 0) (hp : a.eoiParamRequired = 0) :
    readLE32 (irqStubState cfg base ent ext a m0).buf
        (1 + (stubStage3 cfg base ent a m0).off) =
      usub32 a.eoiRtn (base + (5 + (stubStage3 cfg base ent a m0).off)) := by
  have h4off := stubStage4_off_eoi_noparam cfg base ent a m0 he hr hp
  rw [stub_tail_read4 cfg base ent ext a m0 _ (by omega)]
  unfold stubStage4
  rw [he, hp]
  exact emitCallout_noparam_read_call base a.eoiRtn a.eoiRtnParm
    (stubStage3 cfg base ent a m0) hr

theorem stub_site_add_lo (cfg : StubCfg) (base ent ext : Nat)
    (a : ConnectArgs) (m0 : Nat → Nat) :
    (irqStubState cfg base ent ext a m0).buf
      (stubStage4 cfg base ent a m0).off = IA32_ADD_OPCODE &&& 0xFF := by
  have h5 := stubStage5_off cfg base ent a m0
  rw [stub_tail_byte5 cfg base ent ext a m0 _ (by omega)]
  unfold stubStage5
  exact emitAddEsp_opcode_lo (stubStage4 cfg base ent a m0)

theorem stub_site_add_hi (cfg : StubCfg) (base ent ext : Nat)
    (a : ConnectArgs) (m0 : Nat → Nat) :
    (irqStubState cfg base ent ext a m0).buf
      (1 + (stubStage4 cfg base ent a m0).off) = IA32_ADD_OPCODE >>> 8 := by
  have h5 := stubStage5_off cfg base ent a m0
  rw [stub_tail_byte5 cfg base ent ext a m0 _ (by omega)]
  unfold stubStage5
  exact emitAddEsp_opcode_hi (stubStage4 cfg base ent a m0)

theorem stub_site_add_imm (cfg : StubCfg) (base ent ext : Nat)
    (a : ConnectArgs) (m0 : Nat → Nat) :
    (irqStubState cfg base ent ext a m0).buf
      (2 + (stubStage4 cfg base ent a m0).off) =
      (4 * (stubStage4 cfg base ent a m0).np) % 256 := by
  have h5 := stubStage5_off cfg base ent a m0
  rw [stub_tail_byte5 cfg base ent ext a m0 _ (by omega)]
  unfold stubStage5
  exact emitAddEsp_read_imm (stubStage4 cfg base ent a m0)

theorem stubStage4_np (cfg : StubCfg) (base ent : Nat) (a : ConnectArgs)
    (m0 : Nat → Nat) :
    (stubStage4 cfg base ent a m0).np =
      1 + (if cfg.boiSupported = true ∧ a.boiRtn ≠ 0 ∧ a.boiParamRequired ≠ 0
            then 1 else 0)
        + (if cfg.eoiSupported = true ∧ a.eoiRtn ≠ 0 ∧ a.eoiParamRequired ≠ 0
            then 1 else 0) := by
  unfold stubStage4
  rw [emitCallout_np]
  have h3 : (stubStage3 cfg base ent a m0).np = (stubStage2 cfg base ent a m0).np :=
    rfl
  rw [h3]
  unfold stubStage2
  rw [emitCallout_np]
  have h1 : (stubStage1 base ent m0).np = 1 := rfl
  rw [h1]

theorem emitCallout_above2 (sup : Bool) (base rtn rtnParm paramRequired : Nat)
    (st : EmitSt) (j : Nat)
    (h : (emitCallout sup base rtn rtnParm paramRequired st).off ≤ j) :
    (emitCallout sup base rtn rtnParm paramRequired st).buf j = st.buf j := by
  unfold emitCallout at h ⊢
  by_cases hs : sup = true
  · rw [if_pos hs] at h ⊢
    by_cases hr : rtn = 0
    · rw [if_pos hr]
    · rw [if_neg hr] at h ⊢
      by_cases hp : paramRequired ≠ 0
      · rw [if_pos hp] at h ⊢
        simp only [] at h ⊢
        rw [writeU32_ne _ _ _ _ (by omega), writeByte_app, if_neg (by omega),
          writeU32_ne _ _ _ _ (by omega), writeByte_app, if_neg (by omega)]
      · rw [if_neg hp] at h ⊢
        simp only [] at h ⊢
        rw [writeU32_ne _ _ _ _ (by omega), writeByte_app, if_neg (by omega)]
  · rw [if_neg hs]

/-- Bytes at or beyond the end of the synthesized stub are never written. -/
theorem stub_above (cfg : StubCfg) (base ent ext : Nat) (a : ConnectArgs)
    (m0 : Nat → Nat) (j : Nat)
    (hj : (stubStage5 cfg base ent a m0).off + 5 ≤ j) :
    (irqStubState cfg base ent ext a m0).buf j = m0 j := by
  have h2ge := stubStage2_off_ge cfg base ent a m0
  have h3off := stubStage3_off cfg base ent a m0
  have h4ge := stubStage4_off_ge cfg base ent a m0
  have h5off := stubStage5_off cfg base ent a m0
  unfold irqStubState
  rw [emitJmpExit_above base ext (stubStage5 cfg base ent a m0) j (by omega)]
  unfold stubStage5
  rw [emitAddEsp_above (stubStage4 cfg base ent a m0) j (by omega)]
  unfold stubStage4
  rw [emitCallout_above2 cfg.eoiSupported base a.eoiRtn a.eoiRtnParm
    a.eoiParamRequired (stubStage3 cfg base ent a m0) j (by
      have hee : (emitCallout cfg.eoiSupported base a.eoiRtn a.eoiRtnParm
          a.eoiParamRequired (stubStage3 cfg base ent a m0)).off =
          (stubStage4 cfg base ent a m0).off := rfl
      omega)]
  unfold stubStage3
  rw [emitIsr_above base a.routine a.parameter (stubStage2 cfg base ent a m0) j
    (by omega)]
  unfold stubStage2
  rw [emitCallout_above2 cfg.boiSupported base a.boiRtn a.boiRtnParm
    a.boiParamRequired (stubStage1 base ent m0) j (by
      have hbb : (emitCallout cfg.boiSupported base a.boiRtn a.boiRtnParm
          a.boiParamRequired (stubStage1 base ent m0)).off =
          (stubStage2 cfg base ent a m0).off := rfl
      omega)]
  have h1off : (stubStage1 base ent m0).off = 5 := rfl
  exact emitIntEnt_off_frame base ent m0 j (by omega)

/-- C1: for every combination of BOI/EOI support, routine non-null, and
needs-parameter flags, the 4-byte operand after each emitted `call`/`jmp`
opcode equals the target's address minus the address of the byte following the
operand (`_IntEnt`, `boiRtn`, `routine`, `eoiRtn`, `_IntExit` respectively),
so adding the displacement to the next-instruction address recovers the target
modulo `2^32`. -/
theorem c1_displacements (cfg : StubCfg) (base ent ext : Nat) (a : ConnectArgs)
    (m0 : Nat → Nat) :
    ((irqStubState cfg base ent ext a m0).buf 0 = IA32_CALL_OPCODE
      ∧ readLE32 (irqStubState cfg base ent ext a m0).buf 1 =
          usub32 ent (base + 5)
      ∧ (readLE32 (irqStubState cfg base ent ext a m0).buf 1 + (base + 5)) % M32
          = ent % M32)
    ∧ (cfg.boiSupported = true → a.boiRtn ≠ 0 → a.boiParamRequired ≠ 0 →
        (irqStubState cfg base ent ext a m0).buf 10 = IA32_CALL_OPCODE
        ∧ readLE32 (irqStubState cfg base ent ext a m0).buf 11 =
            usub32 a.boiRtn (base + 15)
        ∧ (readLE32 (irqStubState cfg base ent ext a m0).buf 11 + (base + 15))
            % M32 = a.boiRtn % M32)
    ∧ (cfg.boiSupported = true → a.boiRtn ≠ 0 → a.boiParamRequired = 0 →
        (irqStubState cfg base ent ext a m0).buf 5 = IA32_CALL_OPCODE
        ∧ readLE32 (irqStubState cfg base ent ext a m0).buf 6 =
            usub32 a.boiRtn (base + 10)
        ∧ (readLE32 (irqStubState cfg base ent ext a m0).buf 6 + (base + 10))
            % M32 = a.boiRtn % M32)
    ∧ ((irqStubState cfg base ent ext a m0).buf
          (5 + (stubStage2 cfg base ent a m0).off) = IA32_CALL_OPCODE
      ∧ readLE32 (irqStubState cfg base ent ext a m0).buf
          (6 + (stubStage2 cfg base ent a m0).off) =
          usub32 a.routine (base + (10 + (stubStage2 cfg base ent a m0).off))
      ∧ (readLE32 (irqStubState cfg base ent ext a m0).buf
            (6 + (stubStage2 cfg base ent a m0).off) +
          (base + (10 + (stubStage2 cfg base ent a m0).off))) % M32 =
          a.routine % M32)
    ∧ (cfg.eoiSupported = true → a.eoiRtn ≠ 0 → a.eoiParamRequired ≠ 0 →
        (irqStubState cfg base ent ext a m0).buf
            (5 + (stubStage3 cfg base ent a m0).off) = IA32_CALL_OPCODE
        ∧ readLE32 (irqStubState cfg base ent ext a m0).buf
            (6 + (stubStage3 cfg base ent a m0).off) =
            usub32 a.eoiRtn (base + (10 + (stubStage3 cfg base ent a m0).off))
        ∧ (readLE32 (irqStubState cfg base ent ext a m0).buf
              (6 + (stubStage3 cfg base ent a m0).off) +
            (base + (10 + (stubStage3 cfg base ent a m0).off))) % M32 =
            a.eoiRtn % M32)
    ∧ (cfg.eoiSupported = true → a.eoiRtn ≠ 0 → a.eoiParamRequired = 0 →
        (irqStubState cfg base ent ext a m0).buf
            (stubStage3 cfg base ent a m0).off = IA32_CALL_OPCODE
        ∧ readLE32 (irqStubState cfg base ent ext a m0).buf
            (1 + (stubStage3 cfg base ent a m0).off) =
            usub32 a.eoiRtn (base + (5 + (stubStage3 cfg base ent a m0).off))
        ∧ (readLE32 (irqStubState cfg base ent ext a m0).buf
              (1 + (stubStage3 cfg base ent a m0).off) +
            (base + (5 + (stubStage3 cfg base ent a m0).off))) % M32 =
            a.eoiRtn % M32)
    ∧ ((irqStubState cfg base ent ext a m0).buf
          (stubStage5 cfg base ent a m0).off = IA32_JMP_OPCODE
      ∧ readLE32 (irqStubState cfg base ent ext a m0).buf
          (1 + (stubStage5 cfg base ent a m0).off) =
          usub32 ext (base + (5 + (stubStage5 cfg base ent a m0).off))
      ∧ (readLE32 (irqStubState cfg base ent ext a m0).buf
            (1 + (stubStage5 cfg base ent a m0).off) +
          (base + (5 + (stubStage5 cfg base ent a m0).off))) % M32 =
          ext % M32) := by
  refine ⟨⟨stub_site_ent_opcode cfg base ent ext a m0,
      stub_site_ent_read cfg base ent ext a m0, ?_⟩,
    fun hb hr hp => ⟨stub_site_boi_param_opcode cfg base ent ext a m0 hb hr hp,
      stub_site_boi_param_read cfg base ent ext a m0 hb hr hp, ?_⟩,
    fun hb hr hp => ⟨stub_site_boi_noparam_opcode cfg base ent ext a m0 hb hr hp,
      stub_site_boi_noparam_read cfg base ent ext a m0 hb hr hp, ?_⟩,
    ⟨stub_site_isr_opcode cfg base ent ext a m0,
      stub_site_isr_read cfg base ent ext a m0, ?_⟩,
    fun he hr hp => ⟨stub_site_eoi_param_opcode cfg base ent ext a m0 he hr hp,
      stub_site_eoi_param_read cfg base ent ext a m0 he hr hp, ?_⟩,
    fun he hr hp => ⟨stub_site_eoi_noparam_opcode cfg base ent ext a m0 he hr hp,
      stub_site_eoi_noparam_read cfg base ent ext a m0 he hr hp, ?_⟩,
    ⟨stub_site_jmp_opcode cfg base ent ext a m0,
      stub_site_jmp_read cfg base ent ext a m0, ?_⟩⟩
  · rw [stub_site_ent_read cfg base ent ext a m0]
    exact usub32_add_cancel ent (base + 5)
  · rw [stub_site_boi_param_read cfg base ent ext a m0 hb hr hp]
    exact usub32_add_cancel a.boiRtn (base + 15)
  · rw [stub_site_boi_noparam_read cfg base ent ext a m0 hb hr hp]
    exact usub32_add_cancel a.boiRtn (base + 10)
  · rw [stub_site_isr_read cfg base ent ext a m0]
    exact usub32_add_cancel a.routine
      (base + (10 + (stubStage2 cfg base ent a m0).off))
  · rw [stub_site_eoi_param_read cfg base ent ext a m0 he hr hp]
    exact usub32_add_cancel a.eoiRtn
      (base + (10 + (stubStage3 cfg base ent a m0).off))
  · rw [stub_site_eoi_noparam_read cfg base ent ext a m0 he hr hp]
    exact usub32_add_cancel a.eoiRtn
      (base + (5 + (stubStage3 cfg base ent a m0).off))
  · rw [stub_site_jmp_read cfg base ent ext a m0]
    exact usub32_add_cancel ext
      (base + (5 + (stubStage5 cfg base ent a m0).off))

theorem c1_displacements_witness :
    readLE32 (irqStubState ⟨true, true⟩ 1000 2000 3000
        ⟨300, 77, 400, 88, 1, 500, 99, 1⟩ (fun _ => 0)).buf 11 =
      usub32 400 1015
    ∧ (readLE32 (irqStubState ⟨true, true⟩ 1000 2000 3000
        ⟨300, 77, 400, 88, 1, 500, 99, 1⟩ (fun _ => 0)).buf 11 + 1015) % M32 =
      400 % M32 := by
  have h := c1_displacements ⟨true, true⟩ 1000 2000 3000
    ⟨300, 77, 400, 88, 1, 500, 99, 1⟩ (fun _ => 0)
  obtain ⟨-, hboi, -⟩ := h
  obtain ⟨-, h1, h2⟩ := hboi rfl (by decide) (by decide)
  exact ⟨h1, h2⟩

/-- `irq_connect` with its local `let` bindings expanded, for case analysis. -/
theorem irq_connect_def (debug : Bool) (cfg : StubCfg) (base ent ext : Nat)
    (routine parameter : Nat) (res : SysAllocResult) (st : SysState) :
    irq_connect debug cfg base ent ext routine parameter res st =
      if debug ∧ res.vector = -1 then (-1, st)
      else (res.vector,
        { idt := _IntVecSet st.idt (u32ofInt res.vector) base 0,
          stubBuf := (irqStubState cfg base ent ext
            ⟨routine, parameter, res.boiRtn, res.boiRtnParm,
              res.boiParamRequired, res.eoiRtn, res.eoiRtnParm,
              res.eoiParamRequired⟩ st.stubBuf).buf }) := by
  simp only [irq_connect]

/-- C2: with neither BOI nor EOI support compiled in, `irq_connect` with
handler `R`, parameter `P` and allocated vector 40 emits exactly the 23-byte
stub `call _IntEnt; push P; call R; add esp,4; jmp _IntExit` at offsets
0/5/10/15/18, touches no byte at offset 23 or beyond, and installs a gate
descriptor at IDT byte offset 320 (vector*8) pointing at the stub buffer's
first byte with privilege 0, leaving every other IDT entry unchanged. -/
theorem c2_connect_no_callouts (dbg : Bool) (base ent ext R P : Nat)
    (res : SysAllocResult) (st : SysState) (h40 : res.vector = 40) :
    (irq_connect dbg ⟨false, false⟩ base ent ext R P res st).1 = 40
    ∧ (irq_connect dbg ⟨false, false⟩ base ent ext R P res st).2.stubBuf 0 =
        IA32_CALL_OPCODE
    ∧ readLE32 (irq_connect dbg ⟨false, false⟩ base ent ext R P res st).2.stubBuf 1
        = usub32 ent (base + 5)
    ∧ (irq_connect dbg ⟨false, false⟩ base ent ext R P res st).2.stubBuf 5 =
        IA32_PUSH_OPCODE
    ∧ readLE32 (irq_connect dbg ⟨false, false⟩ base ent ext R P res st).2.stubBuf 6
        = u32 P
    ∧ (irq_connect dbg ⟨false, false⟩ base ent ext R P res st).2.stubBuf 10 =
        IA32_CALL_OPCODE
    ∧ readLE32 (irq_connect dbg ⟨false, false⟩ base ent ext R P res st).2.stubBuf 11
        = usub32 R (base + 15)
    ∧ (irq_connect dbg ⟨false, false⟩ base ent ext R P res st).2.stubBuf 15 = 0x83
    ∧ (irq_connect dbg ⟨false, false⟩ base ent ext R P res st).2.stubBuf 16 = 0xC4
    ∧ (irq_connect dbg ⟨false, false⟩ base ent ext R P res st).2.stubBuf 17 = 4
    ∧ (irq_connect dbg ⟨false, false⟩ base ent ext R P res st).2.stubBuf 18 =
        IA32_JMP_OPCODE
    ∧ readLE32 (irq_connect dbg ⟨false, false⟩ base ent ext R P res st).2.stubBuf 19
        = usub32 ext (base + 23)
    ∧ (∀ i, 23 ≤ i →
        (irq_connect dbg ⟨false, false⟩ base ent ext R P res st).2.stubBuf i =
          st.stubBuf i)
    ∧ (irq_connect dbg ⟨false, false⟩ base ent ext R P res st).2.idt 320 =
        some (_IdtEntCreate base 0)
    ∧ (∀ o, o ≠ 320 →
        (irq_connect dbg ⟨false, false⟩ base ent ext R P res st).2.idt o =
          st.idt o) := by
  have hne : ¬(dbg = true ∧ res.vector = -1) := by
    rintro ⟨-, hv⟩
    rw [h40] at hv
    exact absurd hv (by decide)
  have hv : u32 ((u32ofInt res.vector) <<< 3) = 320 := by
    rw [h40]
    decide
  rw [irq_connect_def, if_neg hne]
  refine ⟨h40, stub_site_ent_opcode ⟨false, false⟩ base ent ext ⟨R, P, res.boiRtn, res.boiRtnParm,
      res.boiParamRequired, res.eoiRtn, res.eoiRtnParm, res.eoiParamRequired⟩
      st.stubBuf,
    stub_site_ent_read ⟨false, false⟩ base ent ext ⟨R, P, res.boiRtn, res.boiRtnParm,
      res.boiParamRequired, res.eoiRtn, res.eoiRtnParm, res.eoiParamRequired⟩
      st.stubBuf,
    stub_site_isr_push_opcode ⟨false, false⟩ base ent ext ⟨R, P, res.boiRtn, res.boiRtnParm,
      res.boiParamRequired, res.eoiRtn, res.eoiRtnParm, res.eoiParamRequired⟩
      st.stubBuf,
    stub_site_isr_push_read ⟨false, false⟩ base ent ext ⟨R, P, res.boiRtn, res.boiRtnParm,
      res.boiParamRequired, res.eoiRtn, res.eoiRtnParm, res.eoiParamRequired⟩
      st.stubBuf,
    stub_site_isr_opcode ⟨false, false⟩ base ent ext ⟨R, P, res.boiRtn, res.boiRtnParm,
      res.boiParamRequired, res.eoiRtn, res.eoiRtnParm, res.eoiParamRequired⟩
      st.stubBuf,
    stub_site_isr_read ⟨false, false⟩ base ent ext ⟨R, P, res.boiRtn, res.boiRtnParm,
      res.boiParamRequired, res.eoiRtn, res.eoiRtnParm, res.eoiParamRequired⟩
      st.stubBuf,
    stub_site_add_lo ⟨false, false⟩ base ent ext ⟨R, P, res.boiRtn, res.boiRtnParm,
      res.boiParamRequired, res.eoiRtn, res.eoiRtnParm, res.eoiParamRequired⟩
      st.stubBuf,
    stub_site_add_hi ⟨false, false⟩ base ent ext ⟨R, P, res.boiRtn, res.boiRtnParm,
      res.boiParamRequired, res.eoiRtn, res.eoiRtnParm, res.eoiParamRequired⟩
      st.stubBuf,
    stub_site_add_imm ⟨false, false⟩ base ent ext ⟨R, P, res.boiRtn, res.boiRtnParm,
      res.boiParamRequired, res.eoiRtn, res.eoiRtnParm, res.eoiParamRequired⟩
      st.stubBuf,
    stub_site_jmp_opcode ⟨false, false⟩ base ent ext ⟨R, P, res.boiRtn, res.boiRtnParm,
      res.boiParamRequired, res.eoiRtn, res.eoiRtnParm, res.eoiParamRequired⟩
      st.stubBuf,
    stub_site_jmp_read ⟨false, false⟩ base ent ext ⟨R, P, res.boiRtn, res.boiRtnParm,
      res.boiParamRequired, res.eoiRtn, res.eoiRtnParm, res.eoiParamRequired⟩
      st.stubBuf,
    fun i hi => stub_above ⟨false, false⟩ base ent ext ⟨R, P, res.boiRtn, res.boiRtnParm,
      res.boiParamRequired, res.eoiRtn, res.eoiRtnParm, res.eoiParamRequired⟩
      st.stubBuf i hi, ?_, ?_⟩
  · show _IntVecSet st.idt (u32ofInt res.vector) base 0 320 =
      some (_IdtEntCreate base 0)
    unfold _IntVecSet
    rw [if_pos hv.symm]
  · intro o ho
    show _IntVecSet st.idt (u32ofInt res.vector) base 0 o = st.idt o
    unfold _IntVecSet
    rw [if_neg (by rw [hv]; exact ho)]

theorem c2_connect_no_callouts_witness :
    (irq_connect true ⟨false, false⟩ 5000 6000 7000 800 900
        ⟨40, 0, 0, 0, 0, 0, 0⟩ ⟨fun _ => none, fun _ => 0⟩).1 = 40
    ∧ (irq_connect true ⟨false, false⟩ 5000 6000 7000 800 900
        ⟨40, 0, 0, 0, 0, 0, 0⟩ ⟨fun _ => none, fun _ => 0⟩).2.stubBuf 17 = 4
    ∧ (irq_connect true ⟨false, false⟩ 5000 6000 7000 800 900
        ⟨40, 0, 0, 0, 0, 0, 0⟩ ⟨fun _ => none, fun _ => 0⟩).2.idt 320 =
      some (_IdtEntCreate 5000 0) := by
  have h := c2_connect_no_callouts true 5000 6000 7000 800 900
    ⟨40, 0, 0, 0, 0, 0, 0⟩ ⟨fun _ => none, fun _ => 0⟩ rfl
  exact ⟨h.1, h.2.2.2.2.2.2.2.2.2.1, h.2.2.2.2.2.2.2.2.2.2.2.2.2.1⟩

/-- C3: the stack-cleanup immediate equals `4 * (1 + boi + eoi)` where each
callout contributes 1 exactly when it is compiled in, its routine pointer is
non-null, and it requires a parameter. -/
theorem c3_cleanup_immediate (cfg : StubCfg) (base ent ext : Nat)
    (a : ConnectArgs) (m0 : Nat → Nat) :
    (irqStubState cfg base ent ext a m0).buf (stubStage4 cfg base ent a m0).off
        = IA32_ADD_OPCODE &&& 0xFF
    ∧ (irqStubState cfg base ent ext a m0).buf
        (1 + (stubStage4 cfg base ent a m0).off) = IA32_ADD_OPCODE >>> 8
    ∧ (irqStubState cfg base ent ext a m0).buf
        (2 + (stubStage4 cfg base ent a m0).off) =
      4 * (1 + (if cfg.boiSupported = true ∧ a.boiRtn ≠ 0 ∧
              a.boiParamRequired ≠ 0 then 1 else 0)
          + (if cfg.eoiSupported = true ∧ a.eoiRtn ≠ 0 ∧
              a.eoiParamRequired ≠ 0 then 1 else 0)) := by
  refine ⟨stub_site_add_lo cfg base ent ext a m0,
    stub_site_add_hi cfg base ent ext a m0, ?_⟩
  rw [stub_site_add_imm cfg base ent ext a m0, stubStage4_np cfg base ent a m0]
  split_ifs <;> norm_num

theorem c4_intVecAlloc_success_witness :
    (_IntVecAlloc true 256 3 (fun _ => 0xFFFFFFFF)).1 = 63 := by
  have h := (c4_intVecAlloc_success true 256 3 (fun _ => 0xFFFFFFFF)
    (by decide) (by decide)).1
  rw [h]
  decide

theorem c5_scan_direction_witness :
    ∃ k1, k1 < 16 ∧
      ((fun _ : Nat => 0xFFFFFFFF) (2 >>> 1)).testBit k1 = true ∧
      (∀ j, j < k1 →
        ((fun _ : Nat => 0xFFFFFFFF) (2 >>> 1)).testBit j = false) ∧
      (_IntVecAlloc true 256 2 (fun _ => 0xFFFFFFFF)).1 =
        (((2 >>> 1) * 32 + k1 : Nat)) ∧
      ((_IntVecAlloc true 256 2 (fun _ => 0xFFFFFFFF)).2 (2 >>> 1)).testBit k1
        = false ∧
      (∀ j, j < 32 → j ≠ k1 →
        ((_IntVecAlloc true 256 2 (fun _ => 0xFFFFFFFF)).2 (2 >>> 1)).testBit j
          = ((fun _ : Nat => 0xFFFFFFFF) (2 >>> 1)).testBit j) ∧
      ((∃ j, j < 16 ∧
          ((_IntVecAlloc true 256 2 (fun _ => 0xFFFFFFFF)).2 (2 >>> 1)).testBit
            j = true) →
        ∃ k2, k2 < 16 ∧
          ((_IntVecAlloc true 256 2 (fun _ => 0xFFFFFFFF)).2 (2 >>> 1)).testBit
            k2 = true ∧
          (∀ j, j < k2 →
            ((_IntVecAlloc true 256 2 (fun _ => 0xFFFFFFFF)).2
              (2 >>> 1)).testBit j = false) ∧
          (_IntVecAlloc true 256 2
              (_IntVecAlloc true 256 2 (fun _ => 0xFFFFFFFF)).2).1 =
            (((2 >>> 1) * 32 + k2 : Nat)) ∧
          k1 < k2 ∧
          (_IntVecAlloc true 256 2 (fun _ => 0xFFFFFFFF)).1 <
            (_IntVecAlloc true 256 2
              (_IntVecAlloc true 256 2 (fun _ => 0xFFFFFFFF)).2).1) := by
  exact (c5_scan_direction true 256 2 (fun _ => 0xFFFFFFFF) (by decide)).1 rfl
    ⟨0, by decide, by decide⟩

theorem c6_intVecAlloc_exhausted_witness :
    _IntVecAlloc true 256 2 (fun _ => 0xFFFF0000) =
      (-1, fun _ => 0xFFFF0000) :=
  c6_intVecAlloc_exhausted 256 2 (fun _ => 0xFFFF0000) (by decide)

theorem c7_connect_fail_atomic_witness :
    irq_connect true ⟨true, true⟩ 10 20 30 40 50 ⟨-1, 1, 2, 3, 4, 5, 6⟩
        ⟨fun _ => none, fun _ => 0⟩ =
      (-1, ⟨fun _ => none, fun _ => 0⟩) :=
  c7_connect_fail_atomic ⟨true, true⟩ 10 20 30 40 50 ⟨-1, 1, 2, 3, 4, 5, 6⟩
    ⟨fun _ => none, fun _ => 0⟩ rfl

theorem c8_half_independence_witness :
    (applyOps (fun _ => 0xFFFFFFFF)
        [VecOp.alloc true 256 2, VecOp.markAlloc 32] 1).testBit 20 =
      ((fun _ : Nat => 0xFFFFFFFF) 1).testBit 20 := by
  exact (c8_half_independence (fun _ => 0xFFFFFFFF)
    [VecOp.alloc true 256 2, VecOp.markAlloc 32] 1).1 (by decide) 20
    (by omega) (by omega)

theorem c10_crossover_witness :
    ∃ k, 16 ≤ k ∧ k < 32 ∧
      ((fun _ : Nat => 0x00010000) (2 >>> 1)).testBit k = true ∧
      (∀ j, 16 ≤ j → j < k →
        ((fun _ : Nat => 0x00010000) (2 >>> 1)).testBit j = false) ∧
      (_IntVecAlloc false 256 2 (fun _ => 0x00010000)).1 =
        (((2 >>> 1) * 32 + k : Nat)) ∧
      (((2 >>> 1) * 32 + 16 : Nat) : Int) ≤
        (_IntVecAlloc false 256 2 (fun _ => 0x00010000)).1 ∧
      (_IntVecAlloc false 256 2 (fun _ => 0x00010000)).1 <
        (((2 >>> 1) * 32 + 32 : Nat) : Int) ∧
      ((_IntVecAlloc false 256 2 (fun _ => 0x00010000)).2 (2 >>> 1)).testBit k
        = false ∧
      (∀ j, j < 32 → j ≠ k →
        ((_IntVecAlloc false 256 2 (fun _ => 0x00010000)).2 (2 >>> 1)).testBit j
          = ((fun _ : Nat => 0x00010000) (2 >>> 1)).testBit j) ∧
      (∀ i, i ≠ 2 >>> 1 →
        (_IntVecAlloc false 256 2 (fun _ => 0x00010000)).2 i =
          (fun _ : Nat => 0x00010000) i) := by
  exact (c10_crossover 256 2 (fun _ => 0x00010000)).1 rfl (by decide)
    ⟨16, by omega, by omega, by decide⟩
